import Mathlib

/-!
Verification of the azure-podcast-generator pipeline against its
natural-language specification.

The development shallowly embeds the Python sources under `src/app/`:

* `src/app/utils/speech.py` — SSML generation and chunking,
* `src/app/providers/speech/azure_speech.py` — the Azure speech provider
  (escaping, speaker-to-voice resolution, character-count cost),
* `src/app/utils/cost.py` and `src/app/app.py` — cost formulas,
* `src/app/configurations.py` — provider construction from layered options,
* `src/app/utils/llm.py` — the ReAct script generator: the per-step retry
  loop (`execute_react_step_with_retry`) and the six-stage pipeline
  (`document_to_podcast_script`) with per-stage recovery.

Python dictionaries holding JSON-ish model output are embedded as structures
whose fields are exactly the keys the code reads (all optional, mirroring
duck typing); Python numbers that the code manipulates exactly
(durations, costs) are embedded as `ℚ`; network calls are replaced by an
oracle giving each call's outcome, so that every failure pattern can be
quantified over.
-/

/-! ## Generic helpers: Python dict lookups over association lists -/

/-- Lookup in an association list, mirroring Python `d.get(k)` /
`k in d` on a dict with string keys. -/
def dictGet (l : List (String × String)) (k : String) : Option String :=
  (l.find? (fun p => p.fst == k)).map Prod.snd

/-! ## Voice table (src/app/const.py, duplicated in azure_speech.py) -/

/-- The `AZURE_HD_VOICES` mapping (commented-out entries omitted, as in the
source). -/
def AZURE_HD_VOICES : List (String × String) :=
  [ ("Alloy", "en-US-Alloy:DragonHDLatestNeural"),
    ("Adam", "en-US-Adam:DragonHDLatestNeural"),
    ("Andrew", "en-US-Andrew3:DragonHDLatestNeural"),
    ("Aria", "en-US-Aria:DragonHDLatestNeural"),
    ("Ava", "en-US-Ava3:DragonHDLatestNeural"),
    ("Brian", "en-US-Brian:DragonHDLatestNeural"),
    ("Davis", "en-US-Davis:DragonHDLatestNeural"),
    ("Emma", "en-US-Emma2:DragonHDLatestNeural"),
    ("Jenny", "en-US-Jenny:DragonHDLatestNeural"),
    ("Nova", "en-US-Nova:DragonHDLatestNeural"),
    ("Phoebe", "en-US-Phoebe:DragonHDLatestNeural"),
    ("Serena", "en-US-Serena:DragonHDLatestNeural"),
    ("Steffan", "en-US-Steffan:DragonHDLatestNeural") ]

/-! ## src/app/utils/speech.py -/

/-- One entry of `podcast["script"]` as read by `utils/speech.py`
(`line["name"]`, `line["message"]`). -/
structure UtilsScriptLine where
  name : String
  message : String
  deriving DecidableEq, Repr

/-- The podcast dict as read by `utils/speech.py`:
`podcast["config"]["language"]` and `podcast["script"]`. -/
structure UtilsPodcast where
  language : String
  script : List UtilsScriptLine
  deriving DecidableEq, Repr

/-- Python `AZURE_HD_VOICES.get(speaker, AZURE_HD_VOICES["Andrew"])`.
The key "Andrew" is present in the table, so the inner default is never
used. -/
def azure_hd_voice_lookup (speaker : String) : String :=
  (dictGet AZURE_HD_VOICES speaker).getD ((dictGet AZURE_HD_VOICES "Andrew").getD "")

/-- The voice element built for one line in both `podcast_script_to_ssml`
and `podcast_script_to_ssml_chunks` (src/app/utils/speech.py, lines 49-53
and 73-77): the message is embedded with NO escaping. -/
def utils_voice_element (line : UtilsScriptLine) : String :=
  "<voice name='" ++ azure_hd_voice_lookup line.name ++ "'>" ++ line.message ++ "</voice>"

/-- The opening speak tag of `utils/speech.py`. -/
def speak_open (language : String) : String :=
  "<speak version='1.0' xmlns='http://www.w3.org/2001/10/synthesis' xml:lang='" ++
    language ++ "'>"

/-- `podcast_script_to_ssml` (src/app/utils/speech.py lines 39-55): a fold
accumulating `ssml += voice_element`, then `ssml += "</speak>"`. -/
def podcast_script_to_ssml (p : UtilsPodcast) : String :=
  (p.script.foldl (fun acc line => acc ++ utils_voice_element line)
    (speak_open p.language)) ++ "</speak>"

/-- The Python loop `for i in range(0, len(l), 50): batch = l[i:i+50]`:
successive batches of at most 50 elements; an empty list gives no batch. -/
def list_chunks_50 {α : Type} : List α → List (List α)
  | [] => []
  | x :: xs => ((x :: xs).take 50) :: list_chunks_50 ((x :: xs).drop 50)
termination_by l => l.length
decreasing_by
  simp only [List.length_drop, List.length_cons]
  omega

/-- `podcast_script_to_ssml_chunks` (src/app/utils/speech.py lines 57-88):
the voice elements are batched into chunks of at most 50 and each batch is
wrapped in its own full speak element. -/
def podcast_script_to_ssml_chunks (p : UtilsPodcast) : List String :=
  let voice_elements := p.script.map utils_voice_element
  (list_chunks_50 voice_elements).map
    (fun batch => speak_open p.language ++ String.join batch ++ "</speak>")

/-! ## src/app/providers/speech/azure_speech.py -/

/-- One entry of `podcast["script"]` as read by
`AzureSpeechProvider.podcast_script_to_ssml` (`line["speaker"]`,
`line["message"]`). -/
structure AzureScriptLine where
  speaker : String
  message : String
  deriving DecidableEq, Repr

/-- The podcast dict as read by the Azure provider:
`podcast.get("config", \x7b\x7d).get("language", "en-US")` and
`podcast["script"]`. -/
structure AzurePodcast where
  config_language : Option String
  script : List AzureScriptLine
  deriving DecidableEq, Repr

/-- The provider state set up in `AzureSpeechProvider.__init__`:
`self.voices`, `self.voice_1`, `self.voice_2` (defaults
`AZURE_HD_VOICES`, "Andrew", "Ava"). -/
structure AzureSpeechProviderState where
  voices : List (String × String) := AZURE_HD_VOICES
  voice_1 : String := "Andrew"
  voice_2 : String := "Ava"
  deriving DecidableEq, Repr

/-- Python `s.replace(c, r)` for a single-character pattern: every
occurrence of `c` is replaced by `r`. -/
def replace_all_char (c : Char) (r : List Char) : List Char → List Char
  | [] => []
  | x :: xs => (if x = c then r else [x]) ++ replace_all_char c r xs

/-- The escaping chain of azure_speech.py lines 149-156:
`.replace("&","&amp;").replace("<","&lt;").replace(">","&gt;")
.replace('"',"&quot;").replace("'","&apos;")`. -/
def escape_data (l : List Char) : List Char :=
  replace_all_char '\'' "&apos;".data
    (replace_all_char '"' "&quot;".data
      (replace_all_char '>' "&gt;".data
        (replace_all_char '<' "&lt;".data
          (replace_all_char '&' "&amp;".data l))))

/-- The same escaping chain packaged on `String`. -/
def escape_message (m : String) : String :=
  ⟨escape_data m.data⟩

/-- Character-wise escaping table: what each character contributes after
the full replace chain. -/
def escape_char (c : Char) : List Char :=
  if c = '&' then "&amp;".data
  else if c = '<' then "&lt;".data
  else if c = '>' then "&gt;".data
  else if c = '"' then "&quot;".data
  else if c = '\'' then "&apos;".data
  else [c]

/-- The opening speak tag of the Azure provider (includes the mstts
namespace). -/
def azure_speak_open (language : String) : String :=
  "<speak version='1.0' xmlns='http://www.w3.org/2001/10/synthesis' xmlns:mstts='https://www.w3.org/2001/mstts' xml:lang='" ++
    language ++ "'>"

/-- The loop body of `AzureSpeechProvider.podcast_script_to_ssml`
(lines 147-161): escape the message, resolve the speaker
(`voice_1` if `speaker == "speaker_1"`, else `voice_2`), index
`self.voices[voice]` (KeyError, modelled as `none`, if the configured
voice is not in the table), accumulate the ssml string and the
post-escaping character count. -/
def azure_ssml_go (prov : AzureSpeechProviderState) :
    List AzureScriptLine → String → ℕ → Option (String × ℕ)
  | [], acc, count => some (acc, count)
  | line :: rest, acc, count =>
    let message := escape_message line.message
    let voice := if line.speaker = "speaker_1" then prov.voice_1 else prov.voice_2
    match dictGet prov.voices voice with
    | none => none
    | some voice_name =>
      azure_ssml_go prov rest
        (acc ++ "<voice name='" ++ voice_name ++ "'>" ++ message ++ "</voice>")
        (count + message.length)

/-- `AzureSpeechProvider.podcast_script_to_ssml` (lines 133-167). Returns
the ssml document together with the cost the method stores in `self.cost`
(`30 * (character_count / 1_000_000)`, with the character count taken
AFTER escaping). `none` models the KeyError raised when a configured
voice is missing from `self.voices`. -/
def azure_podcast_script_to_ssml (prov : AzureSpeechProviderState)
    (p : AzurePodcast) : Option (String × ℚ) :=
  let language := p.config_language.getD "en-US"
  match azure_ssml_go prov p.script (azure_speak_open language) 0 with
  | none => none
  | some (acc, count) => some (acc ++ "</speak>", 30 * ((count : ℚ) / 1000000))

/-! ## Cost formulas (src/app/utils/cost.py and src/app/app.py) -/

/-- `calculate_azure_ai_speech_costs` (src/app/utils/cost.py lines 16-25). -/
def calculate_azure_ai_speech_costs (characters : ℕ) : ℚ :=
  30 * ((characters : ℚ) / 1000000)

/-- The character count the Azure provider accumulates while building the
ssml: the length of each message AFTER entity escaping. -/
def azure_speech_character_count (script : List AzureScriptLine) : ℕ :=
  (script.map (fun l => (escape_message l.message).length)).sum

/-- The character count used at the call site in src/app/app.py line 251:
`sum(len(item["message"]) for item in podcast_script)` — the RAW message
length, before escaping. -/
def app_speech_characters (script : List AzureScriptLine) : ℕ :=
  (script.map (fun l => l.message.length)).sum

/-- The speech cost as computed in src/app/app.py lines 250-252. -/
def app_speech_cost (script : List AzureScriptLine) : ℚ :=
  calculate_azure_ai_speech_costs (app_speech_characters script)

/-! ## src/app/configurations.py -/

/-- A Python dict of provider options: a partial map from option name to
value. -/
def PDict (V : Type) : Type := String → Option V

/-- Python `a.copy(); a.update(b)`: a key is taken from `b` when present
there, from `a` otherwise — the later layer wins key-by-key. -/
def dict_update {V : Type} (a b : PDict V) : PDict V :=
  fun k => match b k with
  | some v => some v
  | none => a k

/-- The empty dict (Python's default for a missing group of options). -/
def pdict_empty {V : Type} : PDict V := fun _ => none

/-- The `Configuration` dataclass (src/app/configurations.py lines 17-26):
one provider constructor per kind plus a per-kind config dict. Provider
constructors take the merged option dict. -/
structure Configuration (V D L S : Type) where
  document_provider : PDict V → D
  llm_provider : PDict V → L
  speech_provider : PDict V → S
  document_provider_config : PDict V
  llm_provider_config : PDict V
  speech_provider_config : PDict V

/-- The dictionary returned by `create_providers`: exactly the three keys
`document`, `llm`, `speech`. -/
structure Providers (D L S : Type) where
  document : D
  llm : L
  speech : S

/-- `Configuration.create_providers` (src/app/configurations.py lines
28-59): for each kind, start from a copy of the configuration's own
config dict, update it with `default_options.get(kind, \x7b\x7d)`, then with
`kwargs.get(kind, \x7b\x7d)`, and construct the provider from the merged
result. `default_options` may be `None` (`default_options or \x7b\x7d`). -/
def create_providers {V D L S : Type} (c : Configuration V D L S)
    (default_options : Option (String → PDict V))
    (kwargs : String → PDict V) : Providers D L S :=
  let defaults := default_options.getD (fun _ => pdict_empty)
  { document := c.document_provider
      (dict_update (dict_update c.document_provider_config (defaults "document"))
        (kwargs "document"))
    llm := c.llm_provider
      (dict_update (dict_update c.llm_provider_config (defaults "llm"))
        (kwargs "llm"))
    speech := c.speech_provider
      (dict_update (dict_update c.speech_provider_config (defaults "speech"))
        (kwargs "speech")) }

/-! ## execute_react_step_with_retry (src/app/utils/llm.py lines 383-452)

The network call is replaced by an oracle giving the outcome of each
attempt (attempt `k` is the call made when `retry_count = k`), and the
`random.uniform(0.8, 1.2)` samples by a jitter sequence. -/

/-- Outcome of one `client.chat.completions.create` attempt:
`transient` covers the retried classes (`APIError`, `RateLimitError`,
`APIConnectionError`), `fatal` every other exception. -/
inductive CallOutcome (α : Type) where
  | ok (r : α)
  | transient (e : String)
  | fatal (e : String)
  deriving DecidableEq, Repr

/-- Result of the retry wrapper: the successful result, or the re-raised
last transient error, or an immediately re-raised non-transient error —
together with the backoff sleeps performed, in order. -/
inductive RetryResult (α : Type) where
  | success (r : α) (sleeps : List ℚ)
  | raisedTransient (e : String) (sleeps : List ℚ)
  | raisedFatal (e : String) (sleeps : List ℚ)
  deriving DecidableEq, Repr

/-- The `while retry_count <= max_retries` loop: on a transient error the
count is incremented and, if it is still within budget, the loop sleeps
`retry_delay * jitter` and doubles `retry_delay`; otherwise the error is
re-raised. Any other exception is re-raised at once. -/
def retry_loop {α : Type} (oracle : ℕ → CallOutcome α) (jitter : ℕ → ℚ)
    (max_retries : ℕ) : (k : ℕ) → (retry_delay : ℚ) → (sleeps : List ℚ) →
    RetryResult α
  | k, retry_delay, sleeps =>
    match oracle k with
    | .ok r => .success r sleeps
    | .fatal e => .raisedFatal e sleeps
    | .transient e =>
      if _h : k + 1 ≤ max_retries then
        retry_loop oracle jitter max_retries (k + 1) (retry_delay * 2)
          (sleeps ++ [retry_delay * jitter k])
      else
        .raisedTransient e sleeps
termination_by k => max_retries - k

/-- `execute_react_step_with_retry`, collapsed to its control flow: start
with `retry_count = 0` and `retry_delay = initial_retry_delay`. -/
def execute_react_step_with_retry {α : Type} (oracle : ℕ → CallOutcome α)
    (jitter : ℕ → ℚ) (max_retries : ℕ) (initial_retry_delay : ℚ) :
    RetryResult α :=
  retry_loop oracle jitter max_retries 0 initial_retry_delay []

/-- The sleeps the spec prescribes before the first `j` retries:
`initial_delay * 2 ^ attempt * jitter attempt` for attempts `0 .. j-1`. -/
def backoff_sleeps (initial_retry_delay : ℚ) (jitter : ℕ → ℚ) (j : ℕ) :
    List ℚ :=
  (List.range j).map (fun i => initial_retry_delay * 2 ^ i * jitter i)

/-! ## document_to_podcast_script (src/app/utils/llm.py lines 455-1107)

The six-stage ReAct pipeline. One oracle call stands for one (already
retry-wrapped) `execute_react_step_with_retry` invocation: `fail e`
means that invocation raised (retries exhausted or a non-retriable
error), `ok message fc pt ct` that it returned `message`, an optional
tool call `fc`, and a usage of `pt`/`ct` tokens. Tool-call arguments are
embedded as a record of exactly the dict keys the pipeline reads. -/

/-- One planned section as read from `plan_structure` arguments
(`section.get("title", ...)`; duration and description are carried for
the stage-2 fallback structure). -/
structure SectionSpec where
  title : Option String := none
  duration : Option ℚ := none
  description : Option String := none
  deriving DecidableEq, Repr

/-- One dialogue line of a generated section (`dialogue["speaker"]`,
`dialogue["text"]`; both are required by the `generate_section` function
schema). -/
structure DialogueLine where
  speaker : String
  text : String
  deriving DecidableEq, Repr

/-- One line of the final script (`{"name": ..., "message": ...}`). -/
structure ScriptLine where
  name : String
  message : String
  deriving DecidableEq, Repr

/-- Tool-call arguments / intermediate result dicts, with exactly the keys
the pipeline reads or its fallback literals write; an absent key is
`none`. An all-`none` record is the empty dict (falsy in Python). -/
structure ArgsDict where
  key_points : Option (List String) := none
  themes : Option (List String) := none
  audience_takeaways : Option (List String) := none
  sections : Option (List SectionSpec) := none
  total_duration : Option ℚ := none
  host_1_name : Option String := none
  host_1_personality : Option String := none
  host_1_role : Option String := none
  host_2_name : Option String := none
  host_2_personality : Option String := none
  host_2_role : Option String := none
  section_title : Option String := none
  dialogue : Option (List DialogueLine) := none
  improvements : Option (List String) := none
  config_language : Option String := none
  script : Option (List ScriptLine) := none
  deriving DecidableEq, Repr

/-- Python truthiness of the dict: falsy iff it has no keys. -/
def ArgsDict.isEmptyDict (d : ArgsDict) : Bool :=
  d.key_points.isNone && d.themes.isNone && d.audience_takeaways.isNone &&
  d.sections.isNone && d.total_duration.isNone &&
  d.host_1_name.isNone && d.host_1_personality.isNone && d.host_1_role.isNone &&
  d.host_2_name.isNone && d.host_2_personality.isNone && d.host_2_role.isNone &&
  d.section_title.isNone && d.dialogue.isNone && d.improvements.isNone &&
  d.config_language.isNone && d.script.isNone

/-- Outcome of one (retry-wrapped) ReAct step execution. -/
inductive StepOutcome where
  | fail (e : String)
  | ok (message : String) (fc : Option ArgsDict) (ptoks ctoks : ℕ)
  deriving DecidableEq, Repr

/-- The oracle: outcome of the i-th step execution of a run. -/
def Oracle : Type := ℕ → StepOutcome

/-- One entry of the `generation_steps` list
(`{"step": ..., "reasoning": ..., "action": ...}`). -/
structure GenStep where
  step : String
  reasoning : String
  action : Option ArgsDict
  deriving DecidableEq, Repr

/-- The caller-supplied parameters the pipeline reads. -/
structure Params where
  title : String := "AI in Action"
  voice_1 : String := "Andrew"
  voice_2 : String := "Emma"
  duration : ℚ := 5
  max_retries : ℕ := 3
  deriving DecidableEq, Repr

/-- The local state of `document_to_podcast_script`: the next oracle call
index, the accumulated `generation_steps`, the token totals, and the
intermediate result variables. `sections` is the insertion-ordered dict
of generated sections. -/
structure GenState where
  idx : ℕ := 0
  steps : List GenStep := []
  ptoks : ℕ := 0
  ctoks : ℕ := 0
  content_analysis : ArgsDict := {}
  podcast_structure : ArgsDict := {}
  host_characters : ArgsDict := {}
  sections : List (String × ArgsDict) := []
  final_script : Option ArgsDict := none
  deriving DecidableEq, Repr

/-- Python dict assignment `d[k] = v` preserving insertion order: an
existing key is updated in place, a new key is appended. -/
def upsert (l : List (String × ArgsDict)) (k : String) (v : ArgsDict) :
    List (String × ArgsDict) :=
  match l with
  | [] => [(k, v)]
  | (k', v') :: rest =>
    if k' = k then (k, v) :: rest else (k', v') :: upsert rest k v

/-- Stage-1 fallback (`recover_generation_state(0)`, lines 534-540). -/
def recover_analysis : ArgsDict :=
  { key_points := some ["Key point extracted from document"],
    themes := some ["Main theme of the document"],
    audience_takeaways := some ["What the audience should learn"] }

/-- Stage-2 fallback (`recover_generation_state(1)`, lines 542-562): a
fixed Introduction / Main Content / Conclusion split at 20% / 60% / 20%
of the requested duration. -/
def recover_structure (duration : ℚ) : ArgsDict :=
  { sections := some
      [ { title := some "Introduction", duration := some (duration * 0.2),
          description := some "Introduction to the topic" },
        { title := some "Main Content", duration := some (duration * 0.6),
          description := some "Main discussion of the topic" },
        { title := some "Conclusion", duration := some (duration * 0.2),
          description := some "Summary and takeaways" } ],
    total_duration := some duration }

/-- Stage-3 fallback (`recover_generation_state(2)`, lines 564-576). -/
def recover_characters (p : Params) : ArgsDict :=
  { host_1_name := some p.voice_1,
    host_1_personality := some "Friendly and engaging",
    host_1_role := some "Main host who guides the conversation",
    host_2_name := some p.voice_2,
    host_2_personality := some "Curious and insightful",
    host_2_role := some "Co-host who asks questions and provides additional perspectives" }

/-- Stage 1 (lines 582-656): one step execution; on success the analysis
(or the previous value if no tool call) is stored and one step record is
appended; on failure the recovery analysis is used and one recovery step
is appended — unless the recovery value is falsy, in which case the
exception is re-raised (dead in practice: the literal is non-empty). -/
def stage1 (o : Oracle) (st : GenState) : Except (String × GenState) GenState :=
  match o st.idx with
  | .ok msg fc pt ct =>
    let ca := match fc with
      | some args => args
      | none => st.content_analysis
    .ok { st with
      idx := st.idx + 1, content_analysis := ca,
      steps := st.steps ++ [⟨"Content Analysis", msg, some ca⟩],
      ptoks := st.ptoks + pt, ctoks := st.ctoks + ct }
  | .fail e =>
    let ca := recover_analysis
    if ca.isEmptyDict then .error (e, { st with idx := st.idx + 1 })
    else .ok { st with
      idx := st.idx + 1, content_analysis := ca,
      steps := st.steps ++
        [⟨"Content Analysis (Recovery)", "Error occurred, using simplified analysis", some ca⟩] }

/-- Stage 2 (lines 658-732): as stage 1, storing `podcast_structure` and
falling back to the 20/60/20 recovery structure. -/
def stage2 (o : Oracle) (p : Params) (st : GenState) :
    Except (String × GenState) GenState :=
  match o st.idx with
  | .ok msg fc pt ct =>
    let ps := match fc with
      | some args => args
      | none => st.podcast_structure
    .ok { st with
      idx := st.idx + 1, podcast_structure := ps,
      steps := st.steps ++ [⟨"Structure Planning", msg, some ps⟩],
      ptoks := st.ptoks + pt, ctoks := st.ctoks + ct }
  | .fail e =>
    let ps := recover_structure p.duration
    if ps.isEmptyDict then .error (e, { st with idx := st.idx + 1 })
    else .ok { st with
      idx := st.idx + 1, podcast_structure := ps,
      steps := st.steps ++
        [⟨"Structure Planning (Recovery)", "Error occurred, using simplified structure", some ps⟩] }

/-- Stage 3 (lines 734-808): as stage 1, storing `host_characters`. -/
def stage3 (o : Oracle) (p : Params) (st : GenState) :
    Except (String × GenState) GenState :=
  match o st.idx with
  | .ok msg fc pt ct =>
    let hc := match fc with
      | some args => args
      | none => st.host_characters
    .ok { st with
      idx := st.idx + 1, host_characters := hc,
      steps := st.steps ++ [⟨"Character Development", msg, some hc⟩],
      ptoks := st.ptoks + pt, ctoks := st.ctoks + ct }
  | .fail e =>
    let hc := recover_characters p
    if hc.isEmptyDict then .error (e, { st with idx := st.idx + 1 })
    else .ok { st with
      idx := st.idx + 1, host_characters := hc,
      steps := st.steps ++
        [⟨"Character Development (Recovery)", "Error occurred, using simplified character definitions", some hc⟩] }

/-- The fallback section literal of stage 4 (lines 874-882). -/
def fallback_section (p : Params) (section_title : String) : ArgsDict :=
  { section_title := some section_title,
    dialogue := some
      [ ⟨p.voice_1, "Let's talk about " ++ section_title ++ "."⟩,
        ⟨p.voice_2, "Yes, this is an important topic from the document."⟩,
        ⟨p.voice_1, "The key points to remember are..."⟩,
        ⟨p.voice_2, "That's a great summary. Let's move on to the next section."⟩ ] }

/-- The per-section `while` loop of stage 4 (lines 819-912). `count` is
`section_retry_counts[section_title]`. A success with a tool call whose
arguments contain `section_title` stores the section (under the MODEL's
title) and appends one step; a success with a tool call missing
`section_title` raises KeyError at line 835, handled like a step failure;
a success without a tool call records nothing and loops again (the
source can loop forever here, modelled by the fuel: `none` =
non-termination). After `max_retries` is exceeded the fallback section is
stored (under the PLANNED title) and one fallback step is appended. -/
def section_loop (o : Oracle) (p : Params) (section_title : String) :
    (count : ℕ) → (fuel : ℕ) → GenState → Option GenState
  | _, 0, _ => none
  | count, fuel + 1, st =>
    match o st.idx with
    | .ok msg (some args) pt ct =>
      (match args.section_title with
      | some model_title =>
        some { st with
      idx := st.idx + 1,
          sections := upsert st.sections model_title args,
          steps := st.steps ++
            [⟨"Section Generation: " ++ section_title, msg, some args⟩],
          ptoks := st.ptoks + pt, ctoks := st.ctoks + ct }
      | none =>
        -- KeyError on section_content["section_title"]
        if count + 1 > p.max_retries then
          some { st with
      idx := st.idx + 1,
            sections := upsert st.sections section_title (fallback_section p section_title),
            steps := st.steps ++
              [⟨"Section Generation: " ++ section_title ++ " (Fallback)",
                "Error occurred after " ++ toString p.max_retries ++ " retries, using fallback section",
                some (fallback_section p section_title)⟩] }
        else
          section_loop o p section_title (count + 1) fuel { st with idx := st.idx + 1 })
    | .ok _msg none pt ct =>
      section_loop o p section_title count fuel
        { st with
      idx := st.idx + 1, ptoks := st.ptoks + pt, ctoks := st.ctoks + ct }
    | .fail _e =>
      if count + 1 > p.max_retries then
        some { st with
      idx := st.idx + 1,
          sections := upsert st.sections section_title (fallback_section p section_title),
          steps := st.steps ++
            [⟨"Section Generation: " ++ section_title ++ " (Fallback)",
              "Error occurred after " ++ toString p.max_retries ++ " retries, using fallback section",
              some (fallback_section p section_title)⟩] }
      else
        section_loop o p section_title (count + 1) fuel { st with idx := st.idx + 1 }

/-- Stage 4 iteration over the planned sections (line 814):
`section.get("title", f"Section \x7bi+1\x7d")` names each loop. -/
def stage4_go (o : Oracle) (p : Params) (fuel : ℕ) :
    (i : ℕ) → List SectionSpec → GenState → Option GenState
  | _, [], st => some st
  | i, sec :: rest, st =>
    let section_title := sec.title.getD ("Section " ++ toString (i + 1))
    match section_loop o p section_title 0 fuel st with
    | none => none
    | some st' => stage4_go o p fuel (i + 1) rest st'

/-- Stage 4 (lines 810-912): runs only when `"sections" in
podcast_structure`. -/
def stage4 (o : Oracle) (p : Params) (fuel : ℕ) (st : GenState) :
    Option GenState :=
  match st.podcast_structure.sections with
  | none => some st
  | some secs => stage4_go o p fuel 0 secs st

/-- The minimal refinements literal of stage 5 (lines 961-964). -/
def minimal_refinements : ArgsDict :=
  { improvements := some
      [ "Ensured consistent tone throughout the podcast",
        "Balanced speaking time between hosts" ] }

/-- Stage 5 (lines 914-990): on success the step's action is the tool-call
arguments if present, else `None`; on failure one minimal-refinements
step is appended. Never raises. -/
def stage5 (o : Oracle) (st : GenState) : GenState :=
  match o st.idx with
  | .ok msg fc pt ct =>
    { st with
      idx := st.idx + 1,
      steps := st.steps ++ [⟨"Review and Refinement", msg, fc⟩],
      ptoks := st.ptoks + pt, ctoks := st.ctoks + ct }
  | .fail _e =>
    { st with
      idx := st.idx + 1,
      steps := st.steps ++
        [⟨"Review and Refinement (Minimal)", "Error occurred, providing minimal refinements", some minimal_refinements⟩] }

/-- The emergency script assembled in the stage-6 handler (lines
1040-1060): a two-line intro, all collected section dialogue in
insertion order, and a four-line outro when fewer than six turns were
collected. -/
def emergency_script_lines (p : Params) (sections : List (String × ArgsDict)) :
    List ScriptLine :=
  let intro : List ScriptLine :=
    [ ⟨p.voice_1, "Welcome to " ++ p.title ++ "! I'm " ++ p.voice_1 ++ " and with me is " ++ p.voice_2 ++ "."⟩,
      ⟨p.voice_2, "Thanks " ++ p.voice_1 ++ ", I'm excited to discuss this topic with you today."⟩ ]
  let body : List ScriptLine := sections.foldl (fun acc kv =>
    match kv.snd.dialogue with
    | some d => acc ++ d.map (fun dl => ⟨dl.speaker, dl.text⟩)
    | none => acc) intro
  if body.length < 6 then
    body ++
      [ ⟨p.voice_1, "Let's summarize what we've discussed today."⟩,
        ⟨p.voice_2, "I think the key takeaways are the points we mentioned earlier."⟩,
        ⟨p.voice_1, "Thanks for listening to " ++ p.title ++ "! I'm " ++ p.voice_1 ++ "..."⟩,
        ⟨p.voice_2, "And I'm " ++ p.voice_2 ++ ". See you next time!"⟩ ]
  else body

/-- The emergency final script dict. -/
def emergency_script (p : Params) (sections : List (String × ArgsDict)) :
    ArgsDict :=
  { config_language := some "en-US",
    script := some (emergency_script_lines p sections) }

/-- Stage 6 (lines 992-1068): on success `final_script` is the tool-call
arguments when present (unchanged, i.e. still `None`, otherwise) and the
step's action is that value; on failure the emergency script is built
and one emergency step appended. Never raises. -/
def stage6 (o : Oracle) (p : Params) (st : GenState) : GenState :=
  match o st.idx with
  | .ok msg fc pt ct =>
    let fs := match fc with
      | some args => some args
      | none => st.final_script
    { st with
      idx := st.idx + 1, final_script := fs,
      steps := st.steps ++ [⟨"Script Finalization", msg, fs⟩],
      ptoks := st.ptoks + pt, ctoks := st.ctoks + ct }
  | .fail _e =>
    let fs := some (emergency_script p st.sections)
    { st with
      idx := st.idx + 1, final_script := fs,
      steps := st.steps ++
        [⟨"Script Finalization (Emergency)", "Error occurred, using emergency script compilation", fs⟩] }

/-- The body of the top-level `try` (everything before the final
`return`): `none` = the stage-4 loop did not terminate within the fuel
(the source can loop forever there); `.error` = an exception escaped the
per-stage recovery (only the dead re-raises can cause this). -/
def run_body (o : Oracle) (p : Params) (fuel : ℕ) :
    Option (Except (String × GenState) GenState) :=
  match stage1 o {} with
  | .error es => some (.error es)
  | .ok st1 =>
    match stage2 o p st1 with
    | .error es => some (.error es)
    | .ok st2 =>
      match stage3 o p st2 with
      | .error es => some (.error es)
      | .ok st3 =>
        match stage4 o p fuel st3 with
        | none => none
        | some st4 => some (.ok (stage6 o p (stage5 o st4)))

/-- The default podcast used when `final_script` is falsy (line 1083). -/
def empty_podcast : ArgsDict :=
  { config_language := some "en-US", script := some [] }

/-- Token usage triple (`CompletionUsage`). -/
structure Usage where
  prompt_tokens : ℕ
  completion_tokens : ℕ
  total_tokens : ℕ
  deriving DecidableEq, Repr

/-- The `PodcastScriptResponse` dataclass. -/
structure PodcastScriptResponse where
  podcast : ArgsDict
  usage : Usage
  generation_steps : List GenStep
  deriving DecidableEq, Repr

/-- The normal return (lines 1074-1086): `final_script if final_script
else` the empty-script placeholder, plus accumulated usage and steps. -/
def normal_response (st : GenState) : PodcastScriptResponse :=
  { podcast := match st.final_script with
      | some d => if d.isEmptyDict then empty_podcast else d
      | none => empty_podcast,
    usage := ⟨st.ptoks, st.ctoks, st.ptoks + st.ctoks⟩,
    generation_steps := st.steps }

/-- The two-turn apologetic script of the catastrophic handler. -/
def apology_script (p : Params) (e : String) : List ScriptLine :=
  [ ⟨p.voice_1, "I'm sorry, we encountered an error during podcast generation: " ++ e⟩,
    ⟨p.voice_2, "Please try again with different settings or a different document."⟩ ]

/-- The catastrophic `except` handler (lines 1088-1107): the exception is
converted into a response carrying the two-turn apologetic script and
the steps and token totals accumulated before the failure. -/
def catastrophic_response (p : Params) (e : String) (st : GenState) :
    PodcastScriptResponse :=
  { podcast := { config_language := some "en-US", script := some (apology_script p e) },
    usage := ⟨st.ptoks, st.ctoks, st.ptoks + st.ctoks⟩,
    generation_steps := st.steps }

/-- `document_to_podcast_script`: the try body wrapped in the
catch-everything handler. `none` only for a non-terminating stage-4
loop; a raise never escapes. -/
def document_to_podcast_script (o : Oracle) (p : Params) (fuel : ℕ) :
    Option PodcastScriptResponse :=
  match run_body o p fuel with
  | none => none
  | some (.ok st) => some (normal_response st)
  | some (.error (e, st)) => some (catastrophic_response p e st)

/-! ## Lemmas about chunking -/

/-- Concatenating the batches gives back the original list. -/
theorem list_chunks_50_flatten {α : Type} (l : List α) :
    (list_chunks_50 l).flatten = l := by
  induction l using list_chunks_50.induct with
  | case1 => simp [list_chunks_50]
  | case2 x xs ih =>
    rw [list_chunks_50, List.flatten_cons, ih, List.take_append_drop]

/-- The number of batches is the integer ceiling of `length / 50`. -/
theorem list_chunks_50_length {α : Type} (l : List α) :
    (list_chunks_50 l).length = (l.length + 49) / 50 := by
  induction l using list_chunks_50.induct with
  | case1 => simp [list_chunks_50]
  | case2 x xs ih =>
    rw [list_chunks_50, List.length_cons, ih]
    simp only [List.length_drop, List.length_cons]
    omega

/-- Each batch holds at most 50 elements. -/
theorem list_chunks_50_le {α : Type} (l : List α) :
    ∀ b ∈ list_chunks_50 l, b.length ≤ 50 := by
  induction l using list_chunks_50.induct with
  | case1 => intro b hb; rw [list_chunks_50] at hb; cases hb
  | case2 x xs ih =>
    intro b hb
    rw [list_chunks_50, List.mem_cons] at hb
    rcases hb with hb | hb
    · subst hb; simp
    · exact ih b hb

/-- A fold appending elements one by one equals the joined map. -/
theorem foldl_append_eq_join {β : Type} (f : β → String) :
    ∀ (l : List β) (init : String),
      l.foldl (fun acc b => acc ++ f b) init = init ++ String.join (l.map f) := by
  intro l
  induction l with
  | nil =>
    intro init
    simp [String.join]
  | cons b rest ih =>
    intro init
    rw [List.foldl_cons, ih, List.map_cons]
    have h1 : String.join (f b :: rest.map f) = f b ++ String.join (rest.map f) := by
      simp only [String.join_eq, List.map_cons, List.flatten_cons]
      rfl
    rw [h1, String.append_assoc]

/-! ## Claim C3 -/

/-- C3 (amended): for a script with `n` turns,
`podcast_script_to_ssml_chunks` produces exactly `ceil(n/50)` chunks
(`(n+49)/50` in integer arithmetic, equivalently the unique `k` with
`n ≤ 50k ≤ n+49`), each chunk wraps a batch of at most 50 voice
elements in its own full speak wrapper, and a script with BETWEEN ONE
AND fifty turns yields a single chunk. (The original claim's "at most
50 turns yields a single chunk" fails at zero turns, which yield zero
chunks.) -/
theorem c3_chunking_amended (p : UtilsPodcast) :
    (podcast_script_to_ssml_chunks p).length = (p.script.length + 49) / 50 ∧
    p.script.length ≤ 50 * (podcast_script_to_ssml_chunks p).length ∧
    50 * (podcast_script_to_ssml_chunks p).length ≤ p.script.length + 49 ∧
    podcast_script_to_ssml_chunks p =
      (list_chunks_50 (p.script.map utils_voice_element)).map
        (fun batch => speak_open p.language ++ String.join batch ++ "</speak>") ∧
    (∀ b ∈ list_chunks_50 (p.script.map utils_voice_element), b.length ≤ 50) ∧
    (1 ≤ p.script.length → p.script.length ≤ 50 →
      (podcast_script_to_ssml_chunks p).length = 1) := by
  have hlen : (podcast_script_to_ssml_chunks p).length =
      (p.script.length + 49) / 50 := by
    unfold podcast_script_to_ssml_chunks
    rw [List.length_map, list_chunks_50_length, List.length_map]
  refine ⟨hlen, ?_, ?_, rfl, list_chunks_50_le _, ?_⟩
  · rw [hlen]; omega
  · rw [hlen]; omega
  · intro h1 h2; rw [hlen]; omega

/-- Witness for the hypotheses of `c3_chunking_amended`: a one-turn
script yields a single chunk. -/
theorem c3_chunking_witness :
    (podcast_script_to_ssml_chunks ⟨"en-US", [⟨"Andrew", "Hi"⟩]⟩).length = 1 :=
  (c3_chunking_amended ⟨"en-US", [⟨"Andrew", "Hi"⟩]⟩).2.2.2.2.2 (by decide) (by decide)

/-- Counterexample to C3 as stated: an empty script (zero turns, hence
"at most 50 turns") yields zero chunks, not a single chunk. -/
theorem c3_chunking_counterexample :
    podcast_script_to_ssml_chunks ⟨"en-US", []⟩ = [] ∧ ¬ (0 = 1) := by
  constructor
  · simp [podcast_script_to_ssml_chunks, list_chunks_50]
  · decide

/-! ## Claim C10 -/

/-- C10: concatenating the voice-element batches of the chunks, in chunk
order, yields exactly the voice-element sequence of the single document
produced by `podcast_script_to_ssml`: chunking neither drops, duplicates,
nor reorders any turn. The chunks are the wrapped batches, and the single
document is the same wrapper around the full element sequence. -/
theorem c10_chunks_preserve_turns (p : UtilsPodcast) :
    (list_chunks_50 (p.script.map utils_voice_element)).flatten =
      p.script.map utils_voice_element ∧
    podcast_script_to_ssml_chunks p =
      (list_chunks_50 (p.script.map utils_voice_element)).map
        (fun batch => speak_open p.language ++ String.join batch ++ "</speak>") ∧
    podcast_script_to_ssml p =
      speak_open p.language ++
        String.join (p.script.map utils_voice_element) ++ "</speak>" := by
  refine ⟨list_chunks_50_flatten _, rfl, ?_⟩
  unfold podcast_script_to_ssml
  rw [foldl_append_eq_join]

/-! ## Lemmas about entity escaping (Claim C2) -/

/-- Joining a cons of strings. -/
theorem string_join_cons (s : String) (l : List String) :
    String.join (s :: l) = s ++ String.join l := by
  simp [String.join_eq]
  rfl

/-- Single-character replacement distributes over list append. -/
theorem replace_all_char_append (c : Char) (r : List Char) :
    ∀ a b : List Char,
      replace_all_char c r (a ++ b) =
        replace_all_char c r a ++ replace_all_char c r b := by
  intro a b
  induction a with
  | nil => rfl
  | cons x xs ih =>
    have h : (x :: xs) ++ b = x :: (xs ++ b) := rfl
    rw [h, replace_all_char, replace_all_char, ih, List.append_assoc]

/-- The full escaping chain distributes over list append. -/
theorem escape_data_append (a b : List Char) :
    escape_data (a ++ b) = escape_data a ++ escape_data b := by
  unfold escape_data
  rw [replace_all_char_append '&', replace_all_char_append '<',
    replace_all_char_append '>', replace_all_char_append '"',
    replace_all_char_append '\'']

/-- The escaping chain maps each single character to its `escape_char`
token: every one of the five specials becomes its entity, unconditionally,
and every other character is untouched. -/
theorem escape_data_single (x : Char) :
    escape_data [x] = escape_char x := by
  by_cases h1 : x = '&'
  · subst h1; rfl
  by_cases h2 : x = '<'
  · subst h2; rfl
  by_cases h3 : x = '>'
  · subst h3; rfl
  by_cases h4 : x = '"'
  · subst h4; rfl
  by_cases h5 : x = '\''
  · subst h5; rfl
  simp only [escape_data, escape_char, replace_all_char, h1, h2, h3, h4, h5,
    if_false, List.append_nil]

/-- The chained replaces equal character-wise escaping. -/
theorem escape_data_eq_flatten (l : List Char) :
    escape_data l = (l.map escape_char).flatten := by
  induction l with
  | nil => rfl
  | cons x xs ih =>
    have h : x :: xs = [x] ++ xs := rfl
    rw [h, escape_data_append, escape_data_single, List.map_append,
      List.flatten_append, ih]
    simp

/-- No raw `<`, `>`, `"` or `'` survives escaping (the only remaining
`&` characters open entities, by `escape_data_eq_flatten`). -/
theorem escape_data_no_specials (l : List Char) :
    ∀ c ∈ escape_data l, c ≠ '<' ∧ c ≠ '>' ∧ c ≠ '"' ∧ c ≠ '\'' := by
  intro c hc
  rw [escape_data_eq_flatten, List.mem_flatten] at hc
  obtain ⟨piece, hpiece, hcp⟩ := hc
  rw [List.mem_map] at hpiece
  obtain ⟨x, _hx, rfl⟩ := hpiece
  by_cases h1 : x = '&'
  · subst h1
    have he : escape_char '&' = "&amp;".data := by decide
    rw [he] at hcp
    exact (by decide :
      ∀ ch ∈ "&amp;".data, ch ≠ '<' ∧ ch ≠ '>' ∧ ch ≠ '"' ∧ ch ≠ '\'') c hcp
  by_cases h2 : x = '<'
  · subst h2
    have he : escape_char '<' = "&lt;".data := by decide
    rw [he] at hcp
    exact (by decide :
      ∀ ch ∈ "&lt;".data, ch ≠ '<' ∧ ch ≠ '>' ∧ ch ≠ '"' ∧ ch ≠ '\'') c hcp
  by_cases h3 : x = '>'
  · subst h3
    have he : escape_char '>' = "&gt;".data := by decide
    rw [he] at hcp
    exact (by decide :
      ∀ ch ∈ "&gt;".data, ch ≠ '<' ∧ ch ≠ '>' ∧ ch ≠ '"' ∧ ch ≠ '\'') c hcp
  by_cases h4 : x = '"'
  · subst h4
    have he : escape_char '"' = "&quot;".data := by decide
    rw [he] at hcp
    exact (by decide :
      ∀ ch ∈ "&quot;".data, ch ≠ '<' ∧ ch ≠ '>' ∧ ch ≠ '"' ∧ ch ≠ '\'') c hcp
  by_cases h5 : x = '\''
  · subst h5
    have he : escape_char '\'' = "&apos;".data := by decide
    rw [he] at hcp
    exact (by decide :
      ∀ ch ∈ "&apos;".data, ch ≠ '<' ∧ ch ≠ '>' ∧ ch ≠ '"' ∧ ch ≠ '\'') c hcp
  · have he : escape_char x = [x] := by
      simp [escape_char, h1, h2, h3, h4, h5]
    rw [he, List.mem_singleton] at hcp
    subst hcp
    exact ⟨h2, h3, h4, h5⟩

/-- The voice element the Azure provider emits for one line, once the two
configured voices resolve to `n1` and `n2`. -/
def azure_voice_element (n1 n2 : String) (line : AzureScriptLine) : String :=
  "<voice name='" ++ (if line.speaker = "speaker_1" then n1 else n2) ++ "'>" ++
    escape_message line.message ++ "</voice>"

/-- Characterization of the Azure provider's ssml loop when both
configured voices are present in the voice table. -/
theorem azure_ssml_go_eq (prov : AzureSpeechProviderState) (n1 n2 : String)
    (h1 : dictGet prov.voices prov.voice_1 = some n1)
    (h2 : dictGet prov.voices prov.voice_2 = some n2) :
    ∀ (script : List AzureScriptLine) (acc : String) (count : ℕ),
      azure_ssml_go prov script acc count =
        some (acc ++ String.join (script.map (azure_voice_element n1 n2)),
          count + azure_speech_character_count script) := by
  intro script
  induction script with
  | nil =>
    intro acc count
    simp [azure_ssml_go, azure_speech_character_count, String.join]
  | cons line rest ih =>
    intro acc count
    simp only [azure_ssml_go]
    by_cases hsp : line.speaker = "speaker_1"
    · rw [if_pos hsp, h1]
      dsimp only
      rw [ih]
      rw [List.map_cons, string_join_cons]
      refine congrArg some (Prod.ext ?_ ?_)
      · show acc ++ "<voice name='" ++ n1 ++ "'>" ++ escape_message line.message ++
          "</voice>" ++ String.join (rest.map (azure_voice_element n1 n2)) =
          acc ++ (azure_voice_element n1 n2 line ++
            String.join (rest.map (azure_voice_element n1 n2)))
        simp only [azure_voice_element, if_pos hsp, String.append_assoc]
      · show count + (escape_message line.message).length +
          azure_speech_character_count rest =
          count + azure_speech_character_count (line :: rest)
        simp only [azure_speech_character_count, List.map_cons, List.sum_cons]
        omega
    · rw [if_neg hsp, h2]
      dsimp only
      rw [ih]
      rw [List.map_cons, string_join_cons]
      refine congrArg some (Prod.ext ?_ ?_)
      · show acc ++ "<voice name='" ++ n2 ++ "'>" ++ escape_message line.message ++
          "</voice>" ++ String.join (rest.map (azure_voice_element n1 n2)) =
          acc ++ (azure_voice_element n1 n2 line ++
            String.join (rest.map (azure_voice_element n1 n2)))
        simp only [azure_voice_element, if_neg hsp, String.append_assoc]
      · show count + (escape_message line.message).length +
          azure_speech_character_count rest =
          count + azure_speech_character_count (line :: rest)
        simp only [azure_speech_character_count, List.map_cons, List.sum_cons]
        omega

/-- The Azure provider's `podcast_script_to_ssml`, fully characterized,
when both configured voices are in the table. -/
theorem azure_ssml_spec (prov : AzureSpeechProviderState) (p : AzurePodcast)
    (n1 n2 : String)
    (h1 : dictGet prov.voices prov.voice_1 = some n1)
    (h2 : dictGet prov.voices prov.voice_2 = some n2) :
    azure_podcast_script_to_ssml prov p =
      some (azure_speak_open (p.config_language.getD "en-US") ++
          String.join (p.script.map (azure_voice_element n1 n2)) ++ "</speak>",
        30 * ((azure_speech_character_count p.script : ℚ) / 1000000)) := by
  simp only [azure_podcast_script_to_ssml]
  rw [azure_ssml_go_eq prov n1 n2 h1 h2]
  simp

/-! ## Claim C2 -/

/-- C2 (amended): the AZURE PROVIDER's `podcast_script_to_ssml`
entity-escapes the five special characters unconditionally — each
message is embedded as its character-wise escaping, in which every `&`,
`<`, `>`, `"`, `'` has been replaced by its entity and no raw `<`, `>`,
`"`, `'` remains — so that variant produces well-formed markup. The
`utils/speech.py` variant of the same operation does NOT escape (see the
counterexample). -/
theorem c2_azure_escaping_amended (prov : AzureSpeechProviderState)
    (p : AzurePodcast) (n1 n2 : String)
    (h1 : dictGet prov.voices prov.voice_1 = some n1)
    (h2 : dictGet prov.voices prov.voice_2 = some n2) :
    azure_podcast_script_to_ssml prov p =
      some (azure_speak_open (p.config_language.getD "en-US") ++
          String.join (p.script.map (azure_voice_element n1 n2)) ++ "</speak>",
        30 * ((azure_speech_character_count p.script : ℚ) / 1000000)) ∧
    (∀ m : String, (escape_message m).data = (m.data.map escape_char).flatten) ∧
    (∀ m : String, ∀ c ∈ (escape_message m).data,
      c ≠ '<' ∧ c ≠ '>' ∧ c ≠ '"' ∧ c ≠ '\'') := by
  refine ⟨azure_ssml_spec prov p n1 n2 h1 h2, ?_, ?_⟩
  · intro m
    exact escape_data_eq_flatten m.data
  · intro m
    exact escape_data_no_specials m.data

/-- Witness for `c2_azure_escaping_amended` at the default provider and a
message containing all five special characters. -/
theorem c2_azure_escaping_witness :
    azure_podcast_script_to_ssml {}
        ⟨some "en-US", [⟨"speaker_1", "a<b&c\"d'e>f"⟩]⟩ =
      some (azure_speak_open "en-US" ++
          String.join ([(⟨"speaker_1", "a<b&c\"d'e>f"⟩ : AzureScriptLine)].map
            (azure_voice_element "en-US-Andrew3:DragonHDLatestNeural"
              "en-US-Ava3:DragonHDLatestNeural")) ++ "</speak>",
        30 * ((azure_speech_character_count
          [⟨"speaker_1", "a<b&c\"d'e>f"⟩] : ℚ) / 1000000)) :=
  (c2_azure_escaping_amended {} ⟨some "en-US", [⟨"speaker_1", "a<b&c\"d'e>f"⟩]⟩
    "en-US-Andrew3:DragonHDLatestNeural" "en-US-Ava3:DragonHDLatestNeural"
    (by decide) (by decide)).1

/-- Modelled from the spec: "special characters (`& < > \" '`) in message
text must be entity-escaped before embedding, unconditionally", applied
to the `utils/speech.py` scriptToMarkup — identical to
`podcast_script_to_ssml` except that each message is escaped before
embedding. Used only to compare the actual code against the spec's words. -/
def spec_escaped_utils_ssml (p : UtilsPodcast) : String :=
  speak_open p.language ++
    String.join (p.script.map (fun line =>
      "<voice name='" ++ azure_hd_voice_lookup line.name ++ "'>" ++
        escape_message line.message ++ "</voice>")) ++ "</speak>"

/-- Counterexample to C2 as stated: on a one-turn script whose message is
"R&D", the `utils/speech.py` scriptToMarkup does not entity-escape the
message — its output differs from the spec-mandated escaped document and
still contains a raw `&` in text position. -/
theorem c2_utils_no_escaping_counterexample :
    podcast_script_to_ssml ⟨"en-US", [⟨"Andrew", "R&D"⟩]⟩ ≠
      spec_escaped_utils_ssml ⟨"en-US", [⟨"Andrew", "R&D"⟩]⟩ ∧
    (podcast_script_to_ssml ⟨"en-US", [⟨"Andrew", "R&D"⟩]⟩).data.count '&' = 1 ∧
    (escape_message "R&D").data ≠ "R&D".data := by
  refine ⟨?_, ?_, ?_⟩
  · decide
  · decide
  · decide

/-! ## Claim C7 -/

/-- C7 (amended): both cost sites charge 30 dollars per million
characters, but they disagree on the character count: the Azure
provider's `podcast_script_to_ssml` counts message characters AFTER
entity escaping, while the `calculate_azure_ai_speech_costs` call site in
app.py counts them BEFORE escaping. The two agree exactly on scripts
whose messages contain none of the five escaped characters. -/
theorem c7_speech_cost_amended (prov : AzureSpeechProviderState)
    (p : AzurePodcast) (n1 n2 : String)
    (h1 : dictGet prov.voices prov.voice_1 = some n1)
    (h2 : dictGet prov.voices prov.voice_2 = some n2) :
    (∃ ssml, azure_podcast_script_to_ssml prov p =
      some (ssml, 30 * ((azure_speech_character_count p.script : ℚ) / 1000000))) ∧
    app_speech_cost p.script =
      30 * ((app_speech_characters p.script : ℚ) / 1000000) ∧
    ((∀ line ∈ p.script, ∀ c ∈ line.message.data,
        c ≠ '&' ∧ c ≠ '<' ∧ c ≠ '>' ∧ c ≠ '"' ∧ c ≠ '\'') →
      azure_speech_character_count p.script = app_speech_characters p.script ∧
      30 * ((azure_speech_character_count p.script : ℚ) / 1000000) =
        app_speech_cost p.script) := by
  refine ⟨⟨_, azure_ssml_spec prov p n1 n2 h1 h2⟩, rfl, ?_⟩
  intro hplain
  have hcount : azure_speech_character_count p.script =
      app_speech_characters p.script := by
    unfold azure_speech_character_count app_speech_characters
    congr 1
    apply List.map_congr_left
    intro line hline
    have hesc : escape_data line.message.data = line.message.data := by
      rw [escape_data_eq_flatten]
      have : line.message.data.map escape_char = line.message.data.map (fun c => [c]) := by
        apply List.map_congr_left
        intro c hcmem
        obtain ⟨hc1, hc2, hc3, hc4, hc5⟩ := hplain line hline c hcmem
        simp [escape_char, hc1, hc2, hc3, hc4, hc5]
      rw [this]
      induction line.message.data with
      | nil => rfl
      | cons y ys ihy => simp_all
    show (escape_message line.message).length = line.message.length
    unfold escape_message String.length
    rw [hesc]
  exact ⟨hcount, by rw [hcount]; rfl⟩

/-- Witness for `c7_speech_cost_amended`: a plain one-line script on which
both conventions agree. -/
theorem c7_speech_cost_witness :
    azure_speech_character_count [⟨"speaker_1", "Hello"⟩] =
      app_speech_characters [⟨"speaker_1", "Hello"⟩] ∧
    30 * ((azure_speech_character_count
        [(⟨"speaker_1", "Hello"⟩ : AzureScriptLine)] : ℚ) / 1000000) =
      app_speech_cost [⟨"speaker_1", "Hello"⟩] :=
  (c7_speech_cost_amended {} ⟨some "en-US", [⟨"speaker_1", "Hello"⟩]⟩
    "en-US-Andrew3:DragonHDLatestNeural" "en-US-Ava3:DragonHDLatestNeural"
    (by decide) (by decide)).2.2 (by decide)

/-- Counterexample to C7 as stated: on a one-line script whose message is
a single ampersand, the Azure provider stores cost 30·5/10⁶ (the escaped
message "&amp;" has five characters) while app.py computes 30·1/10⁶ —
the two places do not use the same character-count convention. -/
theorem c7_speech_cost_counterexample :
    azure_podcast_script_to_ssml {} ⟨some "en-US", [⟨"speaker_1", "&"⟩]⟩ =
      some ("<speak version='1.0' xmlns='http://www.w3.org/2001/10/synthesis' xmlns:mstts='https://www.w3.org/2001/mstts' xml:lang='en-US'><voice name='en-US-Andrew3:DragonHDLatestNeural'>&amp;</voice></speak>",
        30 * ((5 : ℚ) / 1000000)) ∧
    app_speech_cost [⟨"speaker_1", "&"⟩] = 30 * ((1 : ℚ) / 1000000) ∧
    30 * ((5 : ℚ) / 1000000) ≠ 30 * ((1 : ℚ) / 1000000) := by
  refine ⟨?_, ?_, ?_⟩
  · rfl
  · rfl
  · norm_num

/-! ## Claim C9 -/

/-- C9 (amended): the Azure provider resolves every turn's speaker to
exactly one of the TWO configured voices — voice 1 exactly when the label
is "speaker_1", and voice 2 for EVERY other label. A non-canonical
speaker label (anything other than "speaker_1"/"speaker_2") is therefore
silently mapped to voice 2 rather than raising a schema-validation
failure; markup generation succeeds regardless of the label. -/
theorem c9_speaker_resolution_amended (prov : AzureSpeechProviderState)
    (p : AzurePodcast) (n1 n2 : String)
    (h1 : dictGet prov.voices prov.voice_1 = some n1)
    (h2 : dictGet prov.voices prov.voice_2 = some n2) :
    (azure_podcast_script_to_ssml prov p).isSome ∧
    azure_podcast_script_to_ssml prov p =
      some (azure_speak_open (p.config_language.getD "en-US") ++
          String.join (p.script.map (azure_voice_element n1 n2)) ++ "</speak>",
        30 * ((azure_speech_character_count p.script : ℚ) / 1000000)) ∧
    (∀ line : AzureScriptLine,
      ((if line.speaker = "speaker_1" then n1 else n2) = n1 ∨
       (if line.speaker = "speaker_1" then n1 else n2) = n2) ∧
      (line.speaker ≠ "speaker_1" →
        (if line.speaker = "speaker_1" then n1 else n2) = n2)) := by
  have hspec := azure_ssml_spec prov p n1 n2 h1 h2
  refine ⟨by rw [hspec]; rfl, hspec, ?_⟩
  intro line
  by_cases hsp : line.speaker = "speaker_1"
  · rw [if_pos hsp]
    exact ⟨Or.inl rfl, fun hne => absurd hsp hne⟩
  · rw [if_neg hsp]
    exact ⟨Or.inr rfl, fun _ => rfl⟩

/-- Witness for `c9_speaker_resolution_amended` at the default provider. -/
theorem c9_speaker_resolution_witness :
    (azure_podcast_script_to_ssml {}
      ⟨some "en-US", [⟨"narrator", "Hi"⟩]⟩).isSome :=
  (c9_speaker_resolution_amended {} ⟨some "en-US", [⟨"narrator", "Hi"⟩]⟩
    "en-US-Andrew3:DragonHDLatestNeural" "en-US-Ava3:DragonHDLatestNeural"
    (by decide) (by decide)).1

/-- Counterexample to C9 as stated: a turn labelled "speaker_3" is not
rejected as a schema-validation failure — the provider produces exactly
the same markup as for a turn labelled "speaker_2", silently mapping the
unknown label to voice 2. -/
theorem c9_speaker_resolution_counterexample :
    azure_podcast_script_to_ssml {} ⟨some "en-US", [⟨"speaker_3", "Hi"⟩]⟩ =
      azure_podcast_script_to_ssml {} ⟨some "en-US", [⟨"speaker_2", "Hi"⟩]⟩ ∧
    (azure_podcast_script_to_ssml {}
      ⟨some "en-US", [⟨"speaker_3", "Hi"⟩]⟩).isSome := by
  constructor
  · rfl
  · rfl

/-! ## Claim C8 -/

/-- C8: `create_providers` constructs exactly the three provider
instances `document`/`llm`/`speech`; each is built from the merge of its
own three layers — the configuration's per-provider config, then the
default options for that kind, then the per-run overrides for that kind —
with later layers winning key-by-key; and the options of one kind never
influence a provider of another kind (non-leakage). -/
theorem c8_create_providers {V D L S : Type} (c : Configuration V D L S)
    (default_options : Option (String → PDict V)) (kwargs : String → PDict V) :
    ((create_providers c default_options kwargs).document =
      c.document_provider (fun k =>
        match kwargs "document" k with
        | some v => some v
        | none =>
          match (default_options.getD (fun _ => pdict_empty)) "document" k with
          | some v => some v
          | none => c.document_provider_config k) ∧
     (create_providers c default_options kwargs).llm =
      c.llm_provider (fun k =>
        match kwargs "llm" k with
        | some v => some v
        | none =>
          match (default_options.getD (fun _ => pdict_empty)) "llm" k with
          | some v => some v
          | none => c.llm_provider_config k) ∧
     (create_providers c default_options kwargs).speech =
      c.speech_provider (fun k =>
        match kwargs "speech" k with
        | some v => some v
        | none =>
          match (default_options.getD (fun _ => pdict_empty)) "speech" k with
          | some v => some v
          | none => c.speech_provider_config k)) ∧
    (∀ (default_options2 : Option (String → PDict V)) (kwargs2 : String → PDict V),
      (default_options2.getD (fun _ => pdict_empty)) "document" =
        (default_options.getD (fun _ => pdict_empty)) "document" →
      kwargs2 "document" = kwargs "document" →
      (create_providers c default_options2 kwargs2).document =
        (create_providers c default_options kwargs).document) ∧
    (∀ (default_options2 : Option (String → PDict V)) (kwargs2 : String → PDict V),
      (default_options2.getD (fun _ => pdict_empty)) "llm" =
        (default_options.getD (fun _ => pdict_empty)) "llm" →
      kwargs2 "llm" = kwargs "llm" →
      (create_providers c default_options2 kwargs2).llm =
        (create_providers c default_options kwargs).llm) ∧
    (∀ (default_options2 : Option (String → PDict V)) (kwargs2 : String → PDict V),
      (default_options2.getD (fun _ => pdict_empty)) "speech" =
        (default_options.getD (fun _ => pdict_empty)) "speech" →
      kwargs2 "speech" = kwargs "speech" →
      (create_providers c default_options2 kwargs2).speech =
        (create_providers c default_options kwargs).speech) := by
  refine ⟨⟨rfl, rfl, rfl⟩, ?_, ?_, ?_⟩
  · intro d2 k2 hd hk
    unfold create_providers
    simp only
    congr 1
    funext k
    unfold dict_update
    rw [hd, hk]
  · intro d2 k2 hd hk
    unfold create_providers
    simp only
    congr 1
    funext k
    unfold dict_update
    rw [hd, hk]
  · intro d2 k2 hd hk
    unfold create_providers
    simp only
    congr 1
    funext k
    unfold dict_update
    rw [hd, hk]

/-- Witness for `c8_create_providers` at a concrete configuration over
natural-number option values, with providers that expose their merged
config: the override layer wins for a contested key. -/
theorem c8_create_providers_witness :
    ((create_providers
        (⟨id, id, id,
          (fun k => if k = "a" then some 1 else none),
          (fun _ => none), (fun _ => none)⟩ : Configuration ℕ (PDict ℕ) (PDict ℕ) (PDict ℕ))
        (some (fun kind => fun k =>
          if kind = "document" ∧ k = "a" then some 2 else none))
        (fun kind => fun k =>
          if kind = "document" ∧ k = "a" then some 3 else none)).document) "a" =
      some 3 := by
  have h := (c8_create_providers
    (⟨id, id, id,
      (fun k => if k = "a" then some 1 else none),
      (fun _ => none), (fun _ => none)⟩ : Configuration ℕ (PDict ℕ) (PDict ℕ) (PDict ℕ))
    (some (fun kind => fun k =>
      if kind = "document" ∧ k = "a" then some 2 else none))
    (fun kind => fun k =>
      if kind = "document" ∧ k = "a" then some 3 else none)).2.1
    (some (fun kind => fun k =>
      if kind = "document" ∧ k = "a" then some 2 else none))
    (fun kind => fun k =>
      if kind = "document" ∧ k = "a" then some 3 else none) rfl rfl
  rw [h]
  rfl

/-! ## Claim C6: lemmas about the retry loop -/

/-- Unfolding one transient step of the loop while the budget allows a
further retry. -/
theorem retry_loop_transient_step {α : Type} (oracle : ℕ → CallOutcome α)
    (jitter : ℕ → ℚ) (max_retries : ℕ) (k : ℕ) (d : ℚ) (s : List ℚ) (e : String)
    (ho : oracle k = .transient e) (hk : k + 1 ≤ max_retries) :
    retry_loop oracle jitter max_retries k d s =
      retry_loop oracle jitter max_retries (k + 1) (d * 2) (s ++ [d * jitter k]) := by
  rw [retry_loop, ho]
  simp only [dif_pos hk]

/-- Unfolding a success step. -/
theorem retry_loop_ok {α : Type} (oracle : ℕ → CallOutcome α)
    (jitter : ℕ → ℚ) (max_retries : ℕ) (k : ℕ) (d : ℚ) (s : List ℚ) (r : α)
    (ho : oracle k = .ok r) :
    retry_loop oracle jitter max_retries k d s = .success r s := by
  rw [retry_loop, ho]

/-- Unfolding a fatal step. -/
theorem retry_loop_fatal {α : Type} (oracle : ℕ → CallOutcome α)
    (jitter : ℕ → ℚ) (max_retries : ℕ) (k : ℕ) (d : ℚ) (s : List ℚ) (e : String)
    (ho : oracle k = .fatal e) :
    retry_loop oracle jitter max_retries k d s = .raisedFatal e s := by
  rw [retry_loop, ho]

/-- Unfolding a transient step with the budget exhausted. -/
theorem retry_loop_exhausted {α : Type} (oracle : ℕ → CallOutcome α)
    (jitter : ℕ → ℚ) (max_retries : ℕ) (k : ℕ) (d : ℚ) (s : List ℚ) (e : String)
    (ho : oracle k = .transient e) (hk : ¬ (k + 1 ≤ max_retries)) :
    retry_loop oracle jitter max_retries k d s = .raisedTransient e s := by
  rw [retry_loop, ho]
  simp only [dif_neg hk]

/-- Running the loop across a block of `j - k` leading transient
outcomes: the accumulated sleeps follow the exponential-backoff formula. -/
theorem retry_loop_skip_transients {α : Type} (oracle : ℕ → CallOutcome α)
    (jitter : ℕ → ℚ) (max_retries : ℕ) (d0 : ℚ) :
    ∀ (n k : ℕ), k + n ≤ max_retries →
      (∀ i, k ≤ i → i < k + n → ∃ e, oracle i = .transient e) →
      retry_loop oracle jitter max_retries k (d0 * 2 ^ k)
          ((List.range k).map (fun i => d0 * 2 ^ i * jitter i)) =
        retry_loop oracle jitter max_retries (k + n) (d0 * 2 ^ (k + n))
          ((List.range (k + n)).map (fun i => d0 * 2 ^ i * jitter i)) := by
  intro n
  induction n with
  | zero => intro k _ _; rfl
  | succ m ih =>
    intro k hk htr
    obtain ⟨e, he⟩ := htr k (Nat.le_refl k) (by omega)
    rw [retry_loop_transient_step oracle jitter max_retries k _ _ e he (by omega)]
    have hmul : d0 * 2 ^ k * 2 = d0 * 2 ^ (k + 1) := by ring
    have hsl : (List.range k).map (fun i => d0 * 2 ^ i * jitter i) ++
        [d0 * 2 ^ k * jitter k] =
        (List.range (k + 1)).map (fun i => d0 * 2 ^ i * jitter i) := by
      rw [List.range_succ, List.map_append]
      rfl
    rw [hmul, hsl]
    have hrec := ih (k + 1) (by omega) (fun i hi1 hi2 => htr i (by omega) (by omega))
    have hkm : k + 1 + m = k + (m + 1) := by omega
    rw [hkm] at hrec
    exact hrec

/-- C6: a single ReAct step call (a) succeeds at the first non-transient
attempt `j ≤ max_retries` after exactly `j` backoff sleeps of
`initial_delay * 2 ^ attempt * jitter attempt`; (b) re-raises the LAST
transient error after `max_retries` sleeps when every attempt in the
budget is transient; (c) re-raises a non-transient error IMMEDIATELY
(no further sleeps) at whatever attempt it occurs. Only the transient
classes are ever retried. -/
theorem c6_retry_behaviour {α : Type} (oracle : ℕ → CallOutcome α)
    (jitter : ℕ → ℚ) (max_retries : ℕ) (initial_retry_delay : ℚ) :
    (∀ j r, j ≤ max_retries → oracle j = .ok r →
      (∀ i, i < j → ∃ e, oracle i = .transient e) →
      execute_react_step_with_retry oracle jitter max_retries initial_retry_delay =
        .success r (backoff_sleeps initial_retry_delay jitter j)) ∧
    (∀ e, oracle max_retries = .transient e →
      (∀ i, i < max_retries → ∃ e2, oracle i = .transient e2) →
      execute_react_step_with_retry oracle jitter max_retries initial_retry_delay =
        .raisedTransient e (backoff_sleeps initial_retry_delay jitter max_retries)) ∧
    (∀ j e, j ≤ max_retries → oracle j = .fatal e →
      (∀ i, i < j → ∃ e2, oracle i = .transient e2) →
      execute_react_step_with_retry oracle jitter max_retries initial_retry_delay =
        .raisedFatal e (backoff_sleeps initial_retry_delay jitter j)) := by
  have hstart : execute_react_step_with_retry oracle jitter max_retries
      initial_retry_delay =
      retry_loop oracle jitter max_retries 0 (initial_retry_delay * 2 ^ 0)
        ((List.range 0).map (fun i => initial_retry_delay * 2 ^ i * jitter i)) := by
    unfold execute_react_step_with_retry
    norm_num
  refine ⟨?_, ?_, ?_⟩
  · intro j r hj ho htr
    rw [hstart,
      retry_loop_skip_transients oracle jitter max_retries initial_retry_delay j 0
        (by omega) (fun i h1 h2 => htr i (by omega)),
      Nat.zero_add,
      retry_loop_ok oracle jitter max_retries j _ _ r ho]
    rfl
  · intro e ho htr
    rw [hstart,
      retry_loop_skip_transients oracle jitter max_retries initial_retry_delay
        max_retries 0 (by omega) (fun i h1 h2 => htr i (by omega)),
      Nat.zero_add,
      retry_loop_exhausted oracle jitter max_retries max_retries _ _ e ho (by omega)]
    rfl
  · intro j e hj ho htr
    rw [hstart,
      retry_loop_skip_transients oracle jitter max_retries initial_retry_delay j 0
        (by omega) (fun i h1 h2 => htr i (by omega)),
      Nat.zero_add,
      retry_loop_fatal oracle jitter max_retries j _ _ e ho]
    rfl

/-- Witness for `c6_retry_behaviour`: two transient failures then a
success, with budget 3, base delay 1 and unit jitter: the call succeeds
after sleeps of 1·2⁰ and 1·2¹. -/
theorem c6_retry_behaviour_witness :
    execute_react_step_with_retry
      (fun i => if i < 2 then CallOutcome.transient "rate limit" else .ok (0 : ℕ))
      (fun _ => 1) 3 1 =
      .success 0 (backoff_sleeps 1 (fun _ => 1) 2) :=
  (c6_retry_behaviour
    (fun i => if i < 2 then CallOutcome.transient "rate limit" else .ok (0 : ℕ))
    (fun _ => 1) 3 1).1 2 0 (by omega) (by norm_num)
    (fun i hi => ⟨"rate limit", by simp [hi]⟩)

/-! ## Lemmas about the ReAct pipeline stages -/

/-- The stage-1 recovery literal is a non-empty dict (so the dead re-raise
in its handler cannot fire). -/
theorem recover_analysis_nonempty : recover_analysis.isEmptyDict = false := rfl

/-- The stage-2 recovery literal is a non-empty dict. -/
theorem recover_structure_nonempty (d : ℚ) :
    (recover_structure d).isEmptyDict = false := rfl

/-- The stage-3 recovery literal is a non-empty dict. -/
theorem recover_characters_nonempty (p : Params) :
    (recover_characters p).isEmptyDict = false := rfl

/-- Stage 1 on a successful step call. -/
theorem stage1_ok_eq (o : Oracle) (st : GenState) (m : String)
    (fc : Option ArgsDict) (pt ct : ℕ) (h : o st.idx = .ok m fc pt ct) :
    stage1 o st = .ok { st with
      idx := st.idx + 1,
      content_analysis := fc.getD st.content_analysis,
      steps := st.steps ++ [⟨"Content Analysis", m, some (fc.getD st.content_analysis)⟩],
      ptoks := st.ptoks + pt, ctoks := st.ctoks + ct } := by
  rw [stage1, h]
  cases fc <;> rfl

/-- Stage 1 on a failed step call: the recovery analysis is stored and a
recovery-tagged step appended. -/
theorem stage1_fail_eq (o : Oracle) (st : GenState) (e : String)
    (h : o st.idx = .fail e) :
    stage1 o st = .ok { st with
      idx := st.idx + 1,
      content_analysis := recover_analysis,
      steps := st.steps ++
        [⟨"Content Analysis (Recovery)", "Error occurred, using simplified analysis", some recover_analysis⟩] } := by
  rw [stage1, h]
  simp [recover_analysis_nonempty]

/-- Stage 2 on a successful step call. -/
theorem stage2_ok_eq (o : Oracle) (p : Params) (st : GenState) (m : String)
    (fc : Option ArgsDict) (pt ct : ℕ) (h : o st.idx = .ok m fc pt ct) :
    stage2 o p st = .ok { st with
      idx := st.idx + 1,
      podcast_structure := fc.getD st.podcast_structure,
      steps := st.steps ++ [⟨"Structure Planning", m, some (fc.getD st.podcast_structure)⟩],
      ptoks := st.ptoks + pt, ctoks := st.ctoks + ct } := by
  rw [stage2, h]
  cases fc <;> rfl

/-- Stage 2 on a failed step call: the 20/60/20 recovery structure is
stored and a recovery-tagged step appended. -/
theorem stage2_fail_eq (o : Oracle) (p : Params) (st : GenState) (e : String)
    (h : o st.idx = .fail e) :
    stage2 o p st = .ok { st with
      idx := st.idx + 1,
      podcast_structure := recover_structure p.duration,
      steps := st.steps ++
        [⟨"Structure Planning (Recovery)", "Error occurred, using simplified structure", some (recover_structure p.duration)⟩] } := by
  rw [stage2, h]
  simp [recover_structure_nonempty]

/-- Stage 3 on a successful step call. -/
theorem stage3_ok_eq (o : Oracle) (p : Params) (st : GenState) (m : String)
    (fc : Option ArgsDict) (pt ct : ℕ) (h : o st.idx = .ok m fc pt ct) :
    stage3 o p st = .ok { st with
      idx := st.idx + 1,
      host_characters := fc.getD st.host_characters,
      steps := st.steps ++ [⟨"Character Development", m, some (fc.getD st.host_characters)⟩],
      ptoks := st.ptoks + pt, ctoks := st.ctoks + ct } := by
  rw [stage3, h]
  cases fc <;> rfl

/-- Stage 3 on a failed step call. -/
theorem stage3_fail_eq (o : Oracle) (p : Params) (st : GenState) (e : String)
    (h : o st.idx = .fail e) :
    stage3 o p st = .ok { st with
      idx := st.idx + 1,
      host_characters := recover_characters p,
      steps := st.steps ++
        [⟨"Character Development (Recovery)", "Error occurred, using simplified character definitions", some (recover_characters p)⟩] } := by
  rw [stage3, h]
  simp [recover_characters_nonempty]

/-- Stage 5 on a successful step call. -/
theorem stage5_ok_eq (o : Oracle) (st : GenState) (m : String)
    (fc : Option ArgsDict) (pt ct : ℕ) (h : o st.idx = .ok m fc pt ct) :
    stage5 o st = { st with
      idx := st.idx + 1,
      steps := st.steps ++ [⟨"Review and Refinement", m, fc⟩],
      ptoks := st.ptoks + pt, ctoks := st.ctoks + ct } := by
  rw [stage5, h]

/-- Stage 5 on a failed step call. -/
theorem stage5_fail_eq (o : Oracle) (st : GenState) (e : String)
    (h : o st.idx = .fail e) :
    stage5 o st = { st with
      idx := st.idx + 1,
      steps := st.steps ++
        [⟨"Review and Refinement (Minimal)", "Error occurred, providing minimal refinements", some minimal_refinements⟩] } := by
  rw [stage5, h]

/-- Stage 6 on a successful step call. -/
theorem stage6_ok_eq (o : Oracle) (p : Params) (st : GenState) (m : String)
    (fc : Option ArgsDict) (pt ct : ℕ) (h : o st.idx = .ok m fc pt ct) :
    stage6 o p st = { st with
      idx := st.idx + 1,
      final_script := fc.elim st.final_script some,
      steps := st.steps ++
        [⟨"Script Finalization", m, fc.elim st.final_script some⟩],
      ptoks := st.ptoks + pt, ctoks := st.ctoks + ct } := by
  cases fc <;> (rw [stage6, h]; rfl)

/-- Stage 6 on a failed step call: the emergency script is assembled from
the collected sections. -/
theorem stage6_fail_eq (o : Oracle) (p : Params) (st : GenState) (e : String)
    (h : o st.idx = .fail e) :
    stage6 o p st = { st with
      idx := st.idx + 1,
      final_script := some (emergency_script p st.sections),
      steps := st.steps ++
        [⟨"Script Finalization (Emergency)", "Error occurred, using emergency script compilation", some (emergency_script p st.sections)⟩] } := by
  rw [stage6, h]

/-- Upon termination, one pass of the per-section loop appends exactly ONE
step record — named after the planned section, with the fallback variant
tagged by the "(Fallback)" suffix — and preserves the planned structure
and the final-script slot. -/
theorem section_loop_char (o : Oracle) (p : Params) (t : String) :
    ∀ (fuel count : ℕ) (st st' : GenState),
      section_loop o p t count fuel st = some st' →
      ∃ s, st'.steps = st.steps ++ [s] ∧
        (s.step = "Section Generation: " ++ t ∨
         s.step = "Section Generation: " ++ t ++ " (Fallback)") ∧
        st'.podcast_structure = st.podcast_structure ∧
        st'.final_script = st.final_script := by
  intro fuel
  induction fuel with
  | zero =>
    intro count st st' h
    rw [section_loop] at h
    exact absurd h Option.noConfusion
  | succ f ih =>
    intro count st st' h
    rw [section_loop] at h
    cases ho : o st.idx with
    | ok m fc pt ct =>
      rw [ho] at h
      cases fc with
      | some args =>
        dsimp only at h
        cases hti : args.section_title with
        | some mt =>
          rw [hti] at h
          dsimp only at h
          simp only [Option.some.injEq] at h
          subst h
          exact ⟨_, rfl, Or.inl rfl, rfl, rfl⟩
        | none =>
          rw [hti] at h
          dsimp only at h
          by_cases hc : count + 1 > p.max_retries
          · rw [if_pos hc] at h
            simp only [Option.some.injEq] at h
            subst h
            exact ⟨_, rfl, Or.inr rfl, rfl, rfl⟩
          · rw [if_neg hc] at h
            obtain ⟨s, hs1, hs2, hs3, hs4⟩ := ih (count + 1) _ st' h
            exact ⟨s, hs1, hs2, hs3, hs4⟩
      | none =>
        dsimp only at h
        obtain ⟨s, hs1, hs2, hs3, hs4⟩ := ih count _ st' h
        exact ⟨s, hs1, hs2, hs3, hs4⟩
    | fail e =>
      rw [ho] at h
      dsimp only at h
      by_cases hc : count + 1 > p.max_retries
      · rw [if_pos hc] at h
        simp only [Option.some.injEq] at h
        subst h
        exact ⟨_, rfl, Or.inr rfl, rfl, rfl⟩
      · rw [if_neg hc] at h
        obtain ⟨s, hs1, hs2, hs3, hs4⟩ := ih (count + 1) _ st' h
        exact ⟨s, hs1, hs2, hs3, hs4⟩

/-- When every successful step call carries a tool call, the per-section
loop terminates within the retry budget. -/
theorem section_loop_some (o : Oracle) (p : Params) (t : String)
    (hno : ∀ i m pt ct, o i ≠ .ok m none pt ct) :
    ∀ (fuel count : ℕ) (st : GenState), count ≤ p.max_retries →
      p.max_retries + 1 ≤ fuel + count →
      ∃ st', section_loop o p t count fuel st = some st' := by
  intro fuel
  induction fuel with
  | zero => intro count st h1 h2; omega
  | succ f ih =>
    intro count st h1 h2
    rw [section_loop]
    cases ho : o st.idx with
    | ok m fc pt ct =>
      cases fc with
      | some args =>
        dsimp only
        cases hti : args.section_title with
        | some mt => exact ⟨_, rfl⟩
        | none =>
          dsimp only
          by_cases hc : count + 1 > p.max_retries
          · rw [if_pos hc]
            exact ⟨_, rfl⟩
          · rw [if_neg hc]
            exact ih (count + 1) _ (by omega) (by omega)
      | none => exact absurd ho (hno st.idx m pt ct)
    | fail e =>
      dsimp only
      by_cases hc : count + 1 > p.max_retries
      · rw [if_pos hc]
        exact ⟨_, rfl⟩
      · rw [if_neg hc]
        exact ih (count + 1) _ (by omega) (by omega)

/-- Upon termination, the stage-4 iteration appends exactly one step per
planned section, in order, each named after a section-generation step. -/
theorem stage4_go_char (o : Oracle) (p : Params) (fuel : ℕ) :
    ∀ (secs : List SectionSpec) (i : ℕ) (st st' : GenState),
      stage4_go o p fuel i secs st = some st' →
      ∃ l, st'.steps = st.steps ++ l ∧
        l.length = secs.length ∧
        (∀ s ∈ l, ∃ t, s.step = "Section Generation: " ++ t ∨
          s.step = "Section Generation: " ++ t ++ " (Fallback)") ∧
        st'.podcast_structure = st.podcast_structure ∧
        st'.final_script = st.final_script := by
  intro secs
  induction secs with
  | nil =>
    intro i st st' h
    rw [stage4_go] at h
    simp only [Option.some.injEq] at h
    subst h
    exact ⟨[], by simp, rfl, by simp, rfl, rfl⟩
  | cons sec rest ih =>
    intro i st st' h
    rw [stage4_go] at h
    cases hloop : section_loop o p (sec.title.getD ("Section " ++ toString (i + 1))) 0 fuel st with
    | none => rw [hloop] at h; exact absurd h Option.noConfusion
    | some st1 =>
      rw [hloop] at h
      dsimp only at h
      obtain ⟨s, hs1, hs2, hs3, hs4⟩ := section_loop_char o p _ fuel 0 st st1 hloop
      obtain ⟨l, hl1, hl2, hl3, hl4, hl5⟩ := ih (i + 1) st1 st' h
      refine ⟨s :: l, ?_, by simp [hl2], ?_, by rw [hl4, hs3], by rw [hl5, hs4]⟩
      · rw [hl1, hs1, List.append_assoc]
        rfl
      · intro s2 hs2mem
        rw [List.mem_cons] at hs2mem
        rcases hs2mem with rfl | h2
        · exact ⟨_, hs2⟩
        · exact hl3 s2 h2

/-- When every successful step call carries a tool call and the fuel
covers the retry budget, the stage-4 iteration terminates. -/
theorem stage4_go_some (o : Oracle) (p : Params) (fuel : ℕ)
    (hno : ∀ i m pt ct, o i ≠ .ok m none pt ct)
    (hfuel : p.max_retries + 1 ≤ fuel) :
    ∀ (secs : List SectionSpec) (i : ℕ) (st : GenState),
      ∃ st', stage4_go o p fuel i secs st = some st' := by
  intro secs
  induction secs with
  | nil => intro i st; exact ⟨st, rfl⟩
  | cons sec rest ih =>
    intro i st
    rw [stage4_go]
    obtain ⟨st1, h1⟩ := section_loop_some o p
      (sec.title.getD ("Section " ++ toString (i + 1))) hno fuel 0 st
      (by omega) (by omega)
    rw [h1]
    exact ih (i + 1) st1

/-- The emergency script always contains at least its two-line intro. -/
theorem emergency_script_lines_length (p : Params)
    (secs : List (String × ArgsDict)) :
    2 ≤ (emergency_script_lines p secs).length := by
  unfold emergency_script_lines
  have hbase : ∀ (l : List (String × ArgsDict)) (acc : List ScriptLine),
      acc.length ≤ (l.foldl (fun acc kv =>
        match kv.snd.dialogue with
        | some d => acc ++ d.map (fun dl => (⟨dl.speaker, dl.text⟩ : ScriptLine))
        | none => acc) acc).length := by
    intro l
    induction l with
    | nil => intro acc; exact Nat.le_refl _
    | cons kv rest ihl =>
      intro acc
      rw [List.foldl_cons]
      refine le_trans ?_ (ihl _)
      cases hd : kv.2.dialogue with
      | none => simp [hd]
      | some d => simp [hd]
  have h2 := hbase secs
    [ ⟨p.voice_1, "Welcome to " ++ p.title ++ "! I'm " ++ p.voice_1 ++ " and with me is " ++ p.voice_2 ++ "."⟩,
      ⟨p.voice_2, "Thanks " ++ p.voice_1 ++ ", I'm excited to discuss this topic with you today."⟩ ]
  simp only [List.length_cons, List.length_nil] at h2
  dsimp only
  split
  · simp only [List.length_append]
    omega
  · omega

/-- The emergency script dict is truthy (non-empty). -/
theorem emergency_script_nonempty (p : Params)
    (secs : List (String × ArgsDict)) :
    (emergency_script p secs).isEmptyDict = false := rfl

/-- A terminating, non-raising run decomposes into the six stages. -/
theorem run_body_ok_decomp (o : Oracle) (p : Params) (fuel : ℕ) (st : GenState)
    (h : run_body o p fuel = some (.ok st)) :
    ∃ st1 st2 st3 st4, stage1 o {} = .ok st1 ∧ stage2 o p st1 = .ok st2 ∧
      stage3 o p st2 = .ok st3 ∧ stage4 o p fuel st3 = some st4 ∧
      st = stage6 o p (stage5 o st4) := by
  unfold run_body at h
  cases hs1 : stage1 o {} with
  | error es => rw [hs1] at h; simp at h
  | ok st1 =>
    rw [hs1] at h
    dsimp only at h
    cases hs2 : stage2 o p st1 with
    | error es => rw [hs2] at h; simp at h
    | ok st2 =>
      rw [hs2] at h
      dsimp only at h
      cases hs3 : stage3 o p st2 with
      | error es => rw [hs3] at h; simp at h
      | ok st3 =>
        rw [hs3] at h
        dsimp only at h
        cases hs4 : stage4 o p fuel st3 with
        | none => rw [hs4] at h; simp at h
        | some st4 =>
          rw [hs4] at h
          dsimp only at h
          simp only [Option.some.injEq, Except.ok.injEq] at h
          exact ⟨st1, st2, st3, st4, rfl, hs2, hs3, hs4, h.symm⟩

/-- What any stage-1 execution does: one step record, tagged "(Recovery)"
exactly when the step call failed. -/
theorem stage1_spec (o : Oracle) (st st1 : GenState)
    (h : stage1 o st = .ok st1) :
    st1.idx = st.idx + 1 ∧
    st1.podcast_structure = st.podcast_structure ∧
    st1.sections = st.sections ∧
    st1.final_script = st.final_script ∧
    ∃ s, st1.steps = st.steps ++ [s] ∧
      (((∃ m fc pt ct, o st.idx = .ok m fc pt ct) ∧ s.step = "Content Analysis") ∨
       ((∃ e, o st.idx = .fail e) ∧ s.step = "Content Analysis (Recovery)")) := by
  cases ho : o st.idx with
  | ok m fc pt ct =>
    rw [stage1_ok_eq o st m fc pt ct ho] at h
    simp only [Except.ok.injEq] at h
    subst h
    exact ⟨rfl, rfl, rfl, rfl, _, rfl, Or.inl ⟨⟨m, fc, pt, ct, rfl⟩, rfl⟩⟩
  | fail e =>
    rw [stage1_fail_eq o st e ho] at h
    simp only [Except.ok.injEq] at h
    subst h
    exact ⟨rfl, rfl, rfl, rfl, _, rfl, Or.inr ⟨⟨e, rfl⟩, rfl⟩⟩

/-- What any stage-2 execution does: one step record, tagged "(Recovery)"
— and then recording the 20/60/20 fallback structure — exactly when the
step call failed. -/
theorem stage2_spec (o : Oracle) (p : Params) (st st2 : GenState)
    (h : stage2 o p st = .ok st2) :
    st2.idx = st.idx + 1 ∧
    st2.sections = st.sections ∧
    st2.final_script = st.final_script ∧
    ∃ s, st2.steps = st.steps ++ [s] ∧
      (((∃ m fc pt ct, o st.idx = .ok m fc pt ct) ∧ s.step = "Structure Planning") ∨
       ((∃ e, o st.idx = .fail e) ∧
        s = ⟨"Structure Planning (Recovery)", "Error occurred, using simplified structure", some (recover_structure p.duration)⟩ ∧
        st2.podcast_structure = recover_structure p.duration)) := by
  cases ho : o st.idx with
  | ok m fc pt ct =>
    rw [stage2_ok_eq o p st m fc pt ct ho] at h
    simp only [Except.ok.injEq] at h
    subst h
    exact ⟨rfl, rfl, rfl, _, rfl, Or.inl ⟨⟨m, fc, pt, ct, rfl⟩, rfl⟩⟩
  | fail e =>
    rw [stage2_fail_eq o p st e ho] at h
    simp only [Except.ok.injEq] at h
    subst h
    exact ⟨rfl, rfl, rfl, _, rfl, Or.inr ⟨⟨e, rfl⟩, rfl, rfl⟩⟩

/-- What any stage-3 execution does. -/
theorem stage3_spec (o : Oracle) (p : Params) (st st3 : GenState)
    (h : stage3 o p st = .ok st3) :
    st3.idx = st.idx + 1 ∧
    st3.podcast_structure = st.podcast_structure ∧
    st3.sections = st.sections ∧
    st3.final_script = st.final_script ∧
    ∃ s, st3.steps = st.steps ++ [s] ∧
      (((∃ m fc pt ct, o st.idx = .ok m fc pt ct) ∧ s.step = "Character Development") ∨
       ((∃ e, o st.idx = .fail e) ∧ s.step = "Character Development (Recovery)")) := by
  cases ho : o st.idx with
  | ok m fc pt ct =>
    rw [stage3_ok_eq o p st m fc pt ct ho] at h
    simp only [Except.ok.injEq] at h
    subst h
    exact ⟨rfl, rfl, rfl, rfl, _, rfl, Or.inl ⟨⟨m, fc, pt, ct, rfl⟩, rfl⟩⟩
  | fail e =>
    rw [stage3_fail_eq o p st e ho] at h
    simp only [Except.ok.injEq] at h
    subst h
    exact ⟨rfl, rfl, rfl, rfl, _, rfl, Or.inr ⟨⟨e, rfl⟩, rfl⟩⟩

/-- What any stage-4 execution does: one step per planned section. -/
theorem stage4_spec (o : Oracle) (p : Params) (fuel : ℕ) (st st4 : GenState)
    (h : stage4 o p fuel st = some st4) :
    ∃ l, st4.steps = st.steps ++ l ∧
      l.length = (match st.podcast_structure.sections with
        | some secs => secs.length
        | none => 0) ∧
      (∀ s ∈ l, ∃ t, s.step = "Section Generation: " ++ t ∨
        s.step = "Section Generation: " ++ t ++ " (Fallback)") ∧
      st4.podcast_structure = st.podcast_structure ∧
      st4.final_script = st.final_script := by
  unfold stage4 at h
  cases hsecs : st.podcast_structure.sections with
  | none =>
    rw [hsecs] at h
    simp only [Option.some.injEq] at h
    subst h
    exact ⟨[], by simp, rfl, by simp, rfl, rfl⟩
  | some secs =>
    rw [hsecs] at h
    obtain ⟨l, hl1, hl2, hl3, hl4, hl5⟩ := stage4_go_char o p fuel secs 0 st st4 h
    exact ⟨l, hl1, by rw [hl2], hl3, hl4, hl5⟩

/-- What any stage-5 execution does. -/
theorem stage5_spec (o : Oracle) (st : GenState) :
    (stage5 o st).idx = st.idx + 1 ∧
    (stage5 o st).podcast_structure = st.podcast_structure ∧
    (stage5 o st).sections = st.sections ∧
    (stage5 o st).final_script = st.final_script ∧
    ∃ s, (stage5 o st).steps = st.steps ++ [s] ∧
      (((∃ m fc pt ct, o st.idx = .ok m fc pt ct) ∧ s.step = "Review and Refinement") ∨
       ((∃ e, o st.idx = .fail e) ∧ s.step = "Review and Refinement (Minimal)")) := by
  cases ho : o st.idx with
  | ok m fc pt ct =>
    rw [stage5_ok_eq o st m fc pt ct ho]
    exact ⟨rfl, rfl, rfl, rfl, _, rfl, Or.inl ⟨⟨m, fc, pt, ct, rfl⟩, rfl⟩⟩
  | fail e =>
    rw [stage5_fail_eq o st e ho]
    exact ⟨rfl, rfl, rfl, rfl, _, rfl, Or.inr ⟨⟨e, rfl⟩, rfl⟩⟩

/-- What any stage-6 execution does. -/
theorem stage6_spec (o : Oracle) (p : Params) (st : GenState) :
    (stage6 o p st).idx = st.idx + 1 ∧
    (stage6 o p st).podcast_structure = st.podcast_structure ∧
    ∃ s, (stage6 o p st).steps = st.steps ++ [s] ∧
      (((∃ m fc pt ct, o st.idx = .ok m fc pt ct) ∧ s.step = "Script Finalization") ∨
       ((∃ e, o st.idx = .fail e) ∧ s.step = "Script Finalization (Emergency)")) := by
  cases ho : o st.idx with
  | ok m fc pt ct =>
    rw [stage6_ok_eq o p st m fc pt ct ho]
    exact ⟨rfl, rfl, _, rfl, Or.inl ⟨⟨m, fc, pt, ct, rfl⟩, rfl⟩⟩
  | fail e =>
    rw [stage6_fail_eq o p st e ho]
    exact ⟨rfl, rfl, _, rfl, Or.inr ⟨⟨e, rfl⟩, rfl⟩⟩

/-- Stage 1 always returns (its recovery dict is non-empty, so the dead
re-raise cannot fire). -/
theorem stage1_total (o : Oracle) (st : GenState) :
    ∃ st1, stage1 o st = .ok st1 := by
  cases ho : o st.idx with
  | ok m fc pt ct => exact ⟨_, stage1_ok_eq o st m fc pt ct ho⟩
  | fail e => exact ⟨_, stage1_fail_eq o st e ho⟩

/-- Stage 2 always returns. -/
theorem stage2_total (o : Oracle) (p : Params) (st : GenState) :
    ∃ st2, stage2 o p st = .ok st2 := by
  cases ho : o st.idx with
  | ok m fc pt ct => exact ⟨_, stage2_ok_eq o p st m fc pt ct ho⟩
  | fail e => exact ⟨_, stage2_fail_eq o p st e ho⟩

/-- Stage 3 always returns. -/
theorem stage3_total (o : Oracle) (p : Params) (st : GenState) :
    ∃ st3, stage3 o p st = .ok st3 := by
  cases ho : o st.idx with
  | ok m fc pt ct => exact ⟨_, stage3_ok_eq o p st m fc pt ct ho⟩
  | fail e => exact ⟨_, stage3_fail_eq o p st e ho⟩

/-! ## Claims C1, C4, C5 -/

/-- An oracle whose every step call succeeds but never emits a tool call. -/
def oracle_all_ok_nofc : Oracle := fun _ => .ok "" none 0 0

/-- An oracle whose every step call fails (failure at every stage). -/
def oracle_all_fail : Oracle := fun _ => .fail "connection error"

/-- An oracle that fails exactly at the structure-planning call (index 1)
and otherwise succeeds with a section tool call. -/
def oracle_plan_fails : Oracle := fun i =>
  if i = 1 then .fail "rate limit"
  else .ok "" (some { section_title := some "General" }) 0 0

/-- The final state of a terminating, non-raising run (observability
helper over `run_body`). -/
def run_ok_state (o : Oracle) (p : Params) (fuel : ℕ) : GenState :=
  match run_body o p fuel with
  | some (.ok st) => st
  | _ => {}

/-- C5: when the stage-2 (structure planning) call fails past its retry
budget, the recorded `GenerationStep` at position 1 is the
fallback-tagged "Structure Planning (Recovery)" record carrying the
fallback structure: exactly three sections — Introduction, Main Content,
Conclusion — with durations 20%, 60% and 20% of the requested duration,
whose sum equals the requested duration exactly (numbers are embedded as
rationals, i.e. exact arithmetic). -/
theorem c5_plan_fallback_structure (o : Oracle) (p : Params) (fuel : ℕ)
    (e : String) (st : GenState) (hfail : o 1 = .fail e)
    (hrun : run_body o p fuel = some (.ok st)) :
    st.steps[1]? = some ⟨"Structure Planning (Recovery)",
      "Error occurred, using simplified structure",
      some (recover_structure p.duration)⟩ ∧
    (recover_structure p.duration).sections = some
      [ ⟨some "Introduction", some (p.duration * 0.2), some "Introduction to the topic"⟩,
        ⟨some "Main Content", some (p.duration * 0.6), some "Main discussion of the topic"⟩,
        ⟨some "Conclusion", some (p.duration * 0.2), some "Summary and takeaways"⟩ ] ∧
    ((recover_structure p.duration).sections.getD []).length = 3 ∧
    ((((recover_structure p.duration).sections.getD []).map
      (fun s => s.duration.getD 0)).sum) = p.duration := by
  obtain ⟨st1, st2, st3, st4, hs1, hs2, hs3, hs4, hst⟩ :=
    run_body_ok_decomp o p fuel st hrun
  obtain ⟨hidx1, _, _, _, s1, hsteps1, _⟩ := stage1_spec o {} st1 hs1
  have hst1steps : st1.steps = [s1] := by
    rw [hsteps1]
    rfl
  have hofail : o st1.idx = .fail e := by
    rw [hidx1]
    exact hfail
  rw [stage2_fail_eq o p st1 e hofail] at hs2
  simp only [Except.ok.injEq] at hs2
  obtain ⟨_, _, _, _, s3, hsteps3, _⟩ := stage3_spec o p st2 st3 hs3
  obtain ⟨l4, hsteps4, _, _, _, _⟩ := stage4_spec o p fuel st3 st4 hs4
  obtain ⟨_, _, _, _, s5, hsteps5, _⟩ := stage5_spec o st4
  obtain ⟨_, _, s6, hsteps6, _⟩ := stage6_spec o p (stage5 o st4)
  refine ⟨?_, rfl, rfl, ?_⟩
  · subst hst
    rw [hsteps6, hsteps5, hsteps4, hsteps3, ← hs2]
    have hsteps2 : ({ st1 with
        idx := st1.idx + 1,
        podcast_structure := recover_structure p.duration,
        steps := st1.steps ++
          [⟨"Structure Planning (Recovery)", "Error occurred, using simplified structure", some (recover_structure p.duration)⟩] } : GenState).steps =
        st1.steps ++
          [⟨"Structure Planning (Recovery)", "Error occurred, using simplified structure", some (recover_structure p.duration)⟩] := rfl
    rw [hsteps2, hst1steps]
    simp only [List.append_assoc, List.cons_append, List.singleton_append]
    rfl
  · show p.duration * 0.2 + (p.duration * 0.6 + (p.duration * 0.2 + 0)) = p.duration
    norm_num
    ring

/-- Witness for `c5_plan_fallback_structure`: a concrete run whose
structure-planning call fails. -/
theorem c5_plan_fallback_witness :
    (run_ok_state oracle_plan_fails {} 1).steps[1]? =
      some ⟨"Structure Planning (Recovery)",
        "Error occurred, using simplified structure",
        some (recover_structure (5 : ℚ))⟩ ∧
    (recover_structure (5 : ℚ)).sections = some
      [ ⟨some "Introduction", some ((5 : ℚ) * 0.2), some "Introduction to the topic"⟩,
        ⟨some "Main Content", some ((5 : ℚ) * 0.6), some "Main discussion of the topic"⟩,
        ⟨some "Conclusion", some ((5 : ℚ) * 0.2), some "Summary and takeaways"⟩ ] ∧
    ((recover_structure (5 : ℚ)).sections.getD []).length = 3 ∧
    ((((recover_structure (5 : ℚ)).sections.getD []).map
      (fun s => s.duration.getD 0)).sum) = (5 : ℚ) :=
  c5_plan_fallback_structure oracle_plan_fails {} 1 "rate limit"
    (run_ok_state oracle_plan_fails {} 1) rfl rfl

/-- C4: in every terminating, non-raising run, the `generation_steps`
list consists of exactly one record for stage 1, one for stage 2, one for
stage 3, one per iterated section of stage 4 (exactly as many as the
planned sections), one for stage 5 and one for stage 6 — in that order;
each of the first three records is success-tagged exactly when the
corresponding call succeeded and recovery-tagged exactly when it failed;
fallback tags differ from success tags; and on a catastrophic failure the
accumulated list is still returned to the caller. -/
theorem c4_one_step_per_stage (o : Oracle) (p : Params) (fuel : ℕ)
    (st : GenState) (h : run_body o p fuel = some (.ok st)) :
    (∃ s1 s2 s3 mid s5 s6,
      st.steps = s1 :: s2 :: s3 :: (mid ++ [s5, s6]) ∧
      (((∃ m fc pt ct, o 0 = .ok m fc pt ct) ∧ s1.step = "Content Analysis") ∨
       ((∃ e, o 0 = .fail e) ∧ s1.step = "Content Analysis (Recovery)")) ∧
      (((∃ m fc pt ct, o 1 = .ok m fc pt ct) ∧ s2.step = "Structure Planning") ∨
       ((∃ e, o 1 = .fail e) ∧ s2.step = "Structure Planning (Recovery)")) ∧
      (((∃ m fc pt ct, o 2 = .ok m fc pt ct) ∧ s3.step = "Character Development") ∨
       ((∃ e, o 2 = .fail e) ∧ s3.step = "Character Development (Recovery)")) ∧
      mid.length = (match st.podcast_structure.sections with
        | some secs => secs.length
        | none => 0) ∧
      (∀ s ∈ mid, ∃ t, s.step = "Section Generation: " ++ t ∨
        s.step = "Section Generation: " ++ t ++ " (Fallback)") ∧
      (s5.step = "Review and Refinement" ∨
       s5.step = "Review and Refinement (Minimal)") ∧
      (s6.step = "Script Finalization" ∨
       s6.step = "Script Finalization (Emergency)")) ∧
    (∀ t : String,
      "Section Generation: " ++ t ≠ "Section Generation: " ++ t ++ " (Fallback)") ∧
    (∀ e stE, run_body o p fuel = some (.error (e, stE)) →
      document_to_podcast_script o p fuel = some (catastrophic_response p e stE) ∧
      (catastrophic_response p e stE).generation_steps = stE.steps) := by
  obtain ⟨st1, st2, st3, st4, hs1, hs2, hs3, hs4, hst⟩ :=
    run_body_ok_decomp o p fuel st h
  obtain ⟨hidx1, hps1, _, _, s1, hsteps1, hdisj1⟩ := stage1_spec o {} st1 hs1
  obtain ⟨hidx2, _, _, s2, hsteps2, hdisj2⟩ := stage2_spec o p st1 st2 hs2
  obtain ⟨hidx3, hps3, _, _, s3, hsteps3, hdisj3⟩ := stage3_spec o p st2 st3 hs3
  obtain ⟨l4, hsteps4, hlen4, hnames4, hps4, _⟩ := stage4_spec o p fuel st3 st4 hs4
  obtain ⟨_, hps5, _, _, s5, hsteps5, hdisj5⟩ := stage5_spec o st4
  obtain ⟨_, hps6, s6, hsteps6, hdisj6⟩ := stage6_spec o p (stage5 o st4)
  have htagne : ∀ t : String,
      "Section Generation: " ++ t ≠ "Section Generation: " ++ t ++ " (Fallback)" := by
    intro t hne
    have h2 := congrArg String.length hne
    simp only [String.length_append] at h2
    have h3 : (" (Fallback)" : String).length = 11 := rfl
    omega
  refine ⟨⟨s1, s2, s3, l4, s5, s6, ?_, ?_, ?_, ?_, ?_, hnames4, ?_, ?_⟩, htagne, ?_⟩
  · subst hst
    rw [hsteps6, hsteps5, hsteps4, hsteps3, hsteps2, hsteps1]
    have hinit : ({} : GenState).steps = [] := rfl
    rw [hinit]
    simp only [List.nil_append, List.append_assoc, List.cons_append,
      List.singleton_append]
  · exact hdisj1
  · rw [hidx1] at hdisj2
    rcases hdisj2 with ⟨hex, hn⟩ | ⟨hex, hrec, _⟩
    · exact Or.inl ⟨hex, hn⟩
    · exact Or.inr ⟨hex, by rw [hrec]⟩
  · rw [hidx2, hidx1] at hdisj3
    exact hdisj3
  · rw [hlen4]
    subst hst
    rw [hps6, hps5, hps4, hps3]
  · rcases hdisj5 with ⟨_, hn⟩ | ⟨_, hn⟩
    · exact Or.inl hn
    · exact Or.inr hn
  · rcases hdisj6 with ⟨_, hn⟩ | ⟨_, hn⟩
    · exact Or.inl hn
    · exact Or.inr hn
  · intro e stE hE
    unfold document_to_podcast_script
    rw [hE]
    exact ⟨rfl, rfl⟩

/-- Witness for `c4_one_step_per_stage`: the run in which every call
succeeds without a tool call — five steps, no section iterated. -/
theorem c4_one_step_per_stage_witness :
    (∃ s1 s2 s3 mid s5 s6,
      (run_ok_state oracle_all_ok_nofc {} 1).steps =
        s1 :: s2 :: s3 :: (mid ++ [s5, s6]) ∧
      (((∃ m fc pt ct, oracle_all_ok_nofc 0 = .ok m fc pt ct) ∧
         s1.step = "Content Analysis") ∨
       ((∃ e, oracle_all_ok_nofc 0 = .fail e) ∧
         s1.step = "Content Analysis (Recovery)")) ∧
      (((∃ m fc pt ct, oracle_all_ok_nofc 1 = .ok m fc pt ct) ∧
         s2.step = "Structure Planning") ∨
       ((∃ e, oracle_all_ok_nofc 1 = .fail e) ∧
         s2.step = "Structure Planning (Recovery)")) ∧
      (((∃ m fc pt ct, oracle_all_ok_nofc 2 = .ok m fc pt ct) ∧
         s3.step = "Character Development") ∨
       ((∃ e, oracle_all_ok_nofc 2 = .fail e) ∧
         s3.step = "Character Development (Recovery)")) ∧
      mid.length = (match (run_ok_state oracle_all_ok_nofc {} 1).podcast_structure.sections with
        | some secs => secs.length
        | none => 0) ∧
      (∀ s ∈ mid, ∃ t, s.step = "Section Generation: " ++ t ∨
        s.step = "Section Generation: " ++ t ++ " (Fallback)") ∧
      (s5.step = "Review and Refinement" ∨
       s5.step = "Review and Refinement (Minimal)") ∧
      (s6.step = "Script Finalization" ∨
       s6.step = "Script Finalization (Emergency)")) ∧
    (∀ t : String,
      "Section Generation: " ++ t ≠ "Section Generation: " ++ t ++ " (Fallback)") ∧
    (∀ e stE, run_body oracle_all_ok_nofc {} 1 = some (.error (e, stE)) →
      document_to_podcast_script oracle_all_ok_nofc {} 1 =
        some (catastrophic_response {} e stE) ∧
      (catastrophic_response {} e stE).generation_steps = stE.steps) :=
  c4_one_step_per_stage oracle_all_ok_nofc {} 1
    (run_ok_state oracle_all_ok_nofc {} 1) rfl

/-- C1 (amended): `document_to_podcast_script` never lets an exception
escape — a terminating run always returns a `PodcastScriptResponse`
(normal or, on a catastrophic in-body exception, the two-turn apologetic
script together with the `GenerationStep`s accumulated before the
failure); whenever every successful call carries a tool call the run
terminates within the fuel; and under a failure at EVERY stage the run
terminates with a non-empty script. (The original claim's unconditional
non-emptiness fails: a run whose finalize call succeeds without a tool
call returns the empty-script placeholder — see the counterexample.) -/
theorem c1_never_raises_amended (o : Oracle) (p : Params) (fuel : ℕ) :
    (∀ st, run_body o p fuel = some (.ok st) →
      document_to_podcast_script o p fuel = some (normal_response st)) ∧
    (∀ e st, run_body o p fuel = some (.error (e, st)) →
      document_to_podcast_script o p fuel = some (catastrophic_response p e st) ∧
      (catastrophic_response p e st).podcast.script = some (apology_script p e) ∧
      (apology_script p e).length = 2 ∧
      (catastrophic_response p e st).generation_steps = st.steps) ∧
    ((∀ i m pt ct, o i ≠ .ok m none pt ct) → p.max_retries + 1 ≤ fuel →
      ∃ r, document_to_podcast_script o p fuel = some r) ∧
    ((∀ i, ∃ e, o i = .fail e) → p.max_retries + 1 ≤ fuel →
      ∃ r lines, document_to_podcast_script o p fuel = some r ∧
        r.podcast.script = some lines ∧ lines ≠ []) := by
  have hterm : (∀ i m pt ct, o i ≠ .ok m none pt ct) → p.max_retries + 1 ≤ fuel →
      ∃ st4, run_body o p fuel = some (.ok (stage6 o p (stage5 o st4))) := by
    intro hno hfuel
    obtain ⟨st1, hs1⟩ := stage1_total o {}
    obtain ⟨st2, hs2⟩ := stage2_total o p st1
    obtain ⟨st3, hs3⟩ := stage3_total o p st2
    have hst4 : ∃ st4, stage4 o p fuel st3 = some st4 := by
      unfold stage4
      cases hsecs : st3.podcast_structure.sections with
      | none => exact ⟨st3, rfl⟩
      | some secs => exact stage4_go_some o p fuel hno hfuel secs 0 st3
    obtain ⟨st4, hs4⟩ := hst4
    refine ⟨st4, ?_⟩
    unfold run_body
    rw [hs1]
    dsimp only
    rw [hs2]
    dsimp only
    rw [hs3]
    dsimp only
    rw [hs4]
  refine ⟨?_, ?_, ?_, ?_⟩
  · intro st h
    unfold document_to_podcast_script
    rw [h]
  · intro e st h
    unfold document_to_podcast_script
    rw [h]
    exact ⟨rfl, rfl, rfl, rfl⟩
  · intro hno hfuel
    obtain ⟨st4, hrun⟩ := hterm hno hfuel
    refine ⟨normal_response (stage6 o p (stage5 o st4)), ?_⟩
    unfold document_to_podcast_script
    rw [hrun]
  · intro hfail hfuel
    have hno : ∀ i m pt ct, o i ≠ .ok m none pt ct := by
      intro i m pt ct hcon
      obtain ⟨e, he⟩ := hfail i
      rw [he] at hcon
      exact StepOutcome.noConfusion hcon
    obtain ⟨st4, hrun⟩ := hterm hno hfuel
    obtain ⟨e5, h5⟩ := hfail (stage5 o st4).idx
    have hs6 := stage6_fail_eq o p (stage5 o st4) e5 h5
    refine ⟨normal_response (stage6 o p (stage5 o st4)),
      emergency_script_lines p (stage5 o st4).sections, ?_, ?_, ?_⟩
    · unfold document_to_podcast_script
      rw [hrun]
    · rw [hs6]
      unfold normal_response
      dsimp only
      rw [emergency_script_nonempty]
      rfl
    · intro hnil
      have hlen := emergency_script_lines_length p (stage5 o st4).sections
      rw [hnil] at hlen
      simp at hlen

/-- Witness for `c1_never_raises_amended`: under a failure at every stage
(budget 3, fuel 4) the pipeline returns a response with a non-empty
script. -/
theorem c1_never_raises_witness :
    (∃ r, document_to_podcast_script oracle_all_fail {} 4 = some r) ∧
    (∃ r lines, document_to_podcast_script oracle_all_fail {} 4 = some r ∧
      r.podcast.script = some lines ∧ lines ≠ []) :=
  ⟨(c1_never_raises_amended oracle_all_fail {} 4).2.2.1
      (fun _ _ _ _ h => StepOutcome.noConfusion h) (by norm_num),
   (c1_never_raises_amended oracle_all_fail {} 4).2.2.2
      (fun _ => ⟨"connection error", rfl⟩) (by norm_num)⟩

/-- Counterexample to C1 as stated: when every call succeeds but the
finalize stage never emits a tool call, the pipeline returns normally
(no exception) with the empty-script placeholder — the returned script
list is EMPTY, refuting unconditional non-emptiness. -/
theorem c1_empty_script_counterexample :
    (document_to_podcast_script oracle_all_ok_nofc {} 1).map
      (fun r => r.podcast.script) = some (some ([] : List ScriptLine)) ∧
    (document_to_podcast_script oracle_all_ok_nofc {} 1).map
      (fun r => r.generation_steps.length) = some 5 := ⟨rfl, rfl⟩
